import Mathlib

/-!
# VGMPlayerNX: header parsers `msf.c` and `ngc_pdt.c`

A shallow embedding of `init_vgmstream_msf`, `init_vgmstream_ngc_pdt` and
`init_vgmstream_ngc_pdt_split` (vgmstream/meta), followed by theorems about them.

Conventions of the embedding.

* Locals declared `uint32_t`, `uint16_t`, `uint8_t` or `size_t` in the source are natural
  numbers reduced modulo the width at every assignment (`toU32`, `toU16`, `toU8`, `toSize`);
  `int` locals are integers reduced by `toI32`; `off_t` locals are integers (64 bits wide on
  the target), reduced by `toI64` where a `size_t` sum is assigned to them.
* The stream reader, the codec helpers of `coding.h` and the decode engine are not part of
  the two translation units.  They are fields of `STREAMFILE` and `Engine`; every theorem is
  stated for an arbitrary reader and engine unless it says otherwise.
* The sample counts of `VGMSTREAM` (`num_samples`, `loop_start_sample`, `loop_end_sample`)
  are 32-bit signed fields: a `size_t` or `int64_t` value stored into them is reduced by
  `toI32`.  `dsp_nibbles_to_samples` returns a 32-bit signed value, stored as it is.
-/

set_option maxRecDepth 8192

namespace VGMPlayerNX

/-! ## C integer conversions -/

/-- Conversion to `uint8_t`. -/
def toU8 (x : Int) : Nat := (x % 256).toNat

/-- Conversion to `uint16_t`. -/
def toU16 (x : Int) : Nat := (x % 65536).toNat

/-- Conversion to `uint32_t`. -/
def toU32 (x : Int) : Nat := (x % 4294967296).toNat

/-- Conversion to `size_t` (64 bits). -/
def toSize (x : Int) : Nat := (x % 18446744073709551616).toNat

/-- Conversion to `int` (32 bits, two's complement). -/
def toI32 (x : Int) : Int := (x + 2147483648) % 4294967296 - 2147483648

/-- Conversion to `int64_t` and `off_t` (64 bits, two's complement). -/
def toI64 (x : Int) : Int :=
  (x + 9223372036854775808) % 18446744073709551616 - 9223372036854775808

/-- Unsigned 32-bit wrap-around of a natural number (`uint32_t` arithmetic). -/
def wrap32 (n : Nat) : Nat := n % 4294967296

/-! ## Collaborators outside the translation units -/

/-- The byte source handed to a parser.  The read helpers (`read_8bit`, `read_16bitBE`,
`read_16bitLE`, `read_32bitBE`) are defined outside `msf.c` and `ngc_pdt.c`; a stream file
carries them as functions from an offset to the integer the helper returns. -/
structure STREAMFILE where
  extension : String
  read_8bit : Int → Int
  read_16bitBE : Int → Int
  read_16bitLE : Int → Int
  read_32bitBE : Int → Int
  get_streamfile_size : Int
  stream_index : Int

/-- Values of `coding_type` used by the two parsers (`coding_MPEG` carries the tag chosen
by `init_mpeg`). -/
inductive CodingType where
  | coding_unset
  | coding_PCM16BE
  | coding_PCM16LE
  | coding_PSX
  | coding_FFmpeg
  | coding_NGC_DSP
  | coding_MPEG (tag : Int)
  deriving DecidableEq, Repr

/-- Values of `layout_type` used by the two parsers. -/
inductive LayoutType where
  | layout_unset
  | layout_none
  | layout_interleave
  deriving DecidableEq, Repr

/-- Values of `meta_type` used by the two parsers. -/
inductive MetaType where
  | meta_unset
  | meta_MSF
  | meta_NGC_PDT
  deriving DecidableEq, Repr

/-- What a parser stored in `codec_data`, with the parameters it forwarded to the backend. -/
inductive CodecData where
  | atrac3_raw (block_align encoder_delay : Int)
  | ffmpeg_offset (sampleRate bitrate : Int)
  | mpeg (handle : Int)
  deriving DecidableEq, Repr

/-- The stream descriptor.  `num_samples`, `loop_start_sample` and `loop_end_sample` are
32-bit signed fields: the parsers reduce what they store there by `toI32`, except for the
32-bit result of `dsp_nibbles_to_samples`.  `start_offset` is the offset passed to
`vgmstream_open_stream`;
`ch1_offset` is the value written to `ch[1].channel_start_offset` and `ch[1].offset` once
the stream is open, when the parser writes one. -/
structure VGMSTREAM where
  channels : Int
  loop_flag : Int
  sample_rate : Int := 0
  num_samples : Int := 0
  loop_start_sample : Int := 0
  loop_end_sample : Int := 0
  meta_type : MetaType := MetaType.meta_unset
  coding_type : CodingType := CodingType.coding_unset
  layout_type : LayoutType := LayoutType.layout_unset
  interleave_block_size : Int := 0
  codec_data : Option CodecData := none
  coef_offset : Option Int := none
  num_streams : Int := 0
  stream_size : Int := 0
  start_offset : Option Int := none
  ch1_offset : Option Int := none
  deriving DecidableEq, Repr

/-- The build configuration and the routines called by the parsers that live outside
`msf.c` and `ngc_pdt.c`.  `VGM_USE_FFMPEG` and `VGM_USE_MPEG` are the preprocessor
switches; `allocate_accepts` and `open_accepts` say whether `allocate_vgmstream` and
`vgmstream_open_stream` succeed; the `*_to_samples` fields are the conversions of
`coding.h`; `init_ffmpeg_offset` returns the decoder's `sampleRate` and `bitrate`;
`init_mpeg` returns the coding tag it stores and a handle to its data. -/
structure Engine where
  VGM_USE_FFMPEG : Bool
  VGM_USE_MPEG : Bool
  check_extensions : STREAMFILE → String → Bool
  allocate_accepts : Int → Int → Bool
  open_accepts : VGMSTREAM → STREAMFILE → Int → Bool
  ps_bytes_to_samples : Nat → Int → Int
  atrac3_bytes_to_samples : Nat → Int → Int
  mpeg_bytes_to_samples : Nat → Int → Int
  dsp_nibbles_to_samples : Nat → Int
  init_ffmpeg_atrac3_raw : STREAMFILE → Int → Nat → Int → Int → Int → Int → Int → Bool
  init_ffmpeg_offset : STREAMFILE → Int → Int → Option (Int × Int)
  init_mpeg : STREAMFILE → Int → Int → Option (Int × Int)

/-- Modelled from the spec: `allocate_vgmstream` is defined outside `msf.c` and
`ngc_pdt.c`.  The spec has it allocate "a decode session sized for `channel_count` and
`loop.is_some()`"; the session is a descriptor with these two fields set and every other
field cleared, when the engine accepts the request. -/
def allocate_vgmstream (E : Engine) (channel_count looped : Int) : Option VGMSTREAM :=
  if E.allocate_accepts channel_count looped then
    some { channels := channel_count, loop_flag := looped }
  else none

/-- Modelled from the spec: `pcm_bytes_to_samples` is declared in `coding.h`, outside
`msf.c`.  The spec gives the rule for linear PCM as
`samples = total_bytes / (channel_count * bytes_per_sample)`, a quotient of counts; a
channel count below one leaves no frame to count. -/
def pcm_bytes_to_samples (bytes : Nat) (channels : Int) (bits_per_sample : Nat) : Int :=
  ((bytes / (channels.toNat * (bits_per_sample / 8)) : Nat) : Int)

/-! ## `init_vgmstream_msf` (msf.c) -/

/-- Line 27: `codec = read_32bitBE(0x04,streamFile)`. -/
def msf_codec (sf : STREAMFILE) : Nat := toU32 (sf.read_32bitBE 0x04)

/-- Line 28: `channel_count = read_32bitBE(0x08,streamFile)`. -/
def msf_channel_count (sf : STREAMFILE) : Int := toI32 (sf.read_32bitBE 0x08)

/-- Lines 25-31: `data_size`, recomputed from the source length when the field is all-ones. -/
def msf_data_size (sf : STREAMFILE) : Nat :=
  let start_offset : Int := 0x40
  let data_size := toU32 (sf.read_32bitBE 0x0C)
  if data_size = 0xFFFFFFFF then toU32 (sf.get_streamfile_size - start_offset) else data_size

/-- Line 32: `sample_rate = read_32bitBE(0x10,streamFile)`. -/
def msf_sample_rate (sf : STREAMFILE) : Int := toI32 (sf.read_32bitBE 0x10)

/-- Line 40: `flags = read_32bitBE(0x14,streamFile)`. -/
def msf_flags (sf : STREAMFILE) : Nat := toU32 (sf.read_32bitBE 0x14)

/-- Line 43: `flags != 0xffffffff && ((flags & 0x01) || (flags & 0x02))`. -/
def msf_loop_flag_of (flags : Nat) : Int :=
  if flags ≠ 0xffffffff ∧ ((flags &&& 0x01) ≠ 0 ∨ (flags &&& 0x02) ≠ 0) then 1 else 0

/-- Line 43 on the flag word of the source. -/
def msf_loop_flag (sf : STREAMFILE) : Int := msf_loop_flag_of (msf_flags sf)

/-- Lines 49-51 on the two raw markers: the 32-bit sum, replaced by `data_size` when it is
larger. -/
def msf_clamp_loop_end (loop_start duration data_size : Nat) : Nat :=
  let loop_end := wrap32 (loop_start + duration)
  if loop_end > data_size then data_size else loop_end

/-- Lines 8 and 46-47: `loop_start`, zero unless looping is enabled. -/
def msf_loop_start (sf : STREAMFILE) : Nat :=
  if msf_loop_flag sf ≠ 0 then toU32 (sf.read_32bitBE 0x18) else 0

/-- Lines 8 and 46-52: `loop_end`, zero unless looping is enabled. -/
def msf_loop_end (sf : STREAMFILE) : Nat :=
  if msf_loop_flag sf ≠ 0 then
    msf_clamp_loop_end (toU32 (sf.read_32bitBE 0x18)) (toU32 (sf.read_32bitBE 0x1C))
      (msf_data_size sf)
  else 0

/-- Lines 65-78: `case 0x00` and `case 0x01` (16-bit PCM). -/
def msf_case_pcm (sf : STREAMFILE) (v : VGMSTREAM) : Option VGMSTREAM :=
  let codec := msf_codec sf
  let channel_count := msf_channel_count sf
  let v := { v with
    coding_type := if codec = 0 then CodingType.coding_PCM16BE else CodingType.coding_PCM16LE
    layout_type :=
      if channel_count = 1 then LayoutType.layout_none else LayoutType.layout_interleave
    interleave_block_size := 2
    num_samples := toI32 (pcm_bytes_to_samples (msf_data_size sf) channel_count 16) }
  if msf_loop_flag sf ≠ 0 then
    some { v with
      loop_start_sample := toI32 (pcm_bytes_to_samples (msf_loop_start sf) channel_count 16)
      loop_end_sample := toI32 (pcm_bytes_to_samples (msf_loop_end sf) channel_count 16) }
  else some v

/-- Lines 84-96: `case 0x03` (PS ADPCM). -/
def msf_case_psx (E : Engine) (sf : STREAMFILE) (v : VGMSTREAM) : Option VGMSTREAM :=
  let channel_count := msf_channel_count sf
  let v := { v with
    coding_type := CodingType.coding_PSX
    layout_type := LayoutType.layout_interleave
    interleave_block_size := 0x10
    num_samples := toI32 (E.ps_bytes_to_samples (msf_data_size sf) channel_count) }
  if msf_loop_flag sf ≠ 0 then
    some { v with
      loop_start_sample := toI32 (E.ps_bytes_to_samples (msf_loop_start sf) channel_count)
      loop_end_sample := toI32 (E.ps_bytes_to_samples (msf_loop_end sf) channel_count) }
  else some v

/-- Line 107: `encoder_delay = 1024 + 69*2`. -/
def msf_encoder_delay : Int := 1024 + 69 * 2

/-- Line 108: `block_align`, from the codec id and `vgmstream->channels`, an `int`. -/
def msf_block_align (codec : Nat) (channels : Int) : Int :=
  toI32 ((if codec = 4 then 0x60 else (if codec = 5 then 0x98 else 0xC0)) * channels)

/-- Lines 99-126: `case 0x04`, `case 0x05` and `case 0x06` (ATRAC3), compiled under
`VGM_USE_FFMPEG`. -/
def msf_case_atrac3 (E : Engine) (sf : STREAMFILE) (v : VGMSTREAM) : Option VGMSTREAM :=
  let start_offset : Int := 0x40
  let data_size := msf_data_size sf
  let encoder_delay := msf_encoder_delay
  let block_align := msf_block_align (msf_codec sf) v.channels
  let v := { v with
    num_samples := toI32 (E.atrac3_bytes_to_samples data_size block_align - encoder_delay) }
  let v := if toU32 v.sample_rate = 0xFFFFFFFF then { v with sample_rate := 44100 } else v
  if E.init_ffmpeg_atrac3_raw sf start_offset data_size v.num_samples v.channels
      v.sample_rate block_align encoder_delay = false then none
  else
    let v := { v with
      codec_data := some (CodecData.atrac3_raw block_align encoder_delay)
      coding_type := CodingType.coding_FFmpeg
      layout_type := LayoutType.layout_none }
    if msf_loop_flag sf ≠ 0 then
      some { v with
        loop_start_sample := toI32 (E.atrac3_bytes_to_samples (msf_loop_start sf) block_align)
        loop_end_sample :=
          toI32 (E.atrac3_bytes_to_samples (msf_loop_end sf) block_align - encoder_delay) }
    else some v

/-- Lines 138-141: `(int64_t)bytes * sampleRate * 8 / bitrate`, the products and the
quotient being those of C on `int64_t`. -/
def msf_mp3_samples (bytes : Nat) (sampleRate bitrate : Int) : Int :=
  Int.tdiv (toI64 (toI64 ((bytes : Int) * sampleRate) * 8)) bitrate

/-- Lines 129-147: `case 0x07` through FFmpeg, compiled under `VGM_USE_FFMPEG` without
`VGM_USE_MPEG`. -/
def msf_case_mp3_ffmpeg (E : Engine) (sf : STREAMFILE) (v : VGMSTREAM) : Option VGMSTREAM :=
  let start_offset : Int := 0x40
  match E.init_ffmpeg_offset sf start_offset sf.get_streamfile_size with
  | none => none
  | some (sampleRate, bitrate) =>
    let v := { v with
      codec_data := some (CodecData.ffmpeg_offset sampleRate bitrate)
      coding_type := CodingType.coding_FFmpeg
      layout_type := LayoutType.layout_none
      num_samples := toI32 (msf_mp3_samples (msf_data_size sf) sampleRate bitrate) }
    if msf_loop_flag sf ≠ 0 then
      some { v with
        loop_start_sample := toI32 (msf_mp3_samples (msf_loop_start sf) sampleRate bitrate)
        loop_end_sample := toI32 (msf_mp3_samples (msf_loop_end sf) sampleRate bitrate) }
    else some v

/-- Lines 150-167: `case 0x07` through the MPEG decoder, compiled under `VGM_USE_MPEG`. -/
def msf_case_mpeg (E : Engine) (sf : STREAMFILE) (v : VGMSTREAM) : Option VGMSTREAM :=
  let start_offset : Int := 0x40
  match E.init_mpeg sf start_offset v.channels with
  | none => none
  | some (tag, mpeg_data) =>
    let v := { v with
      coding_type := CodingType.coding_MPEG tag
      codec_data := some (CodecData.mpeg mpeg_data)
      layout_type := LayoutType.layout_none
      num_samples := toI32 (E.mpeg_bytes_to_samples (msf_data_size sf) mpeg_data) }
    if msf_loop_flag sf ≠ 0 then
      some { v with
        loop_start_sample := toI32 (E.mpeg_bytes_to_samples (msf_loop_start sf) mpeg_data)
        loop_end_sample := toI32 (E.mpeg_bytes_to_samples (msf_loop_end sf) mpeg_data) }
    else some v

/-- Lines 64-172: the `switch (codec)` on the allocated descriptor; `none` is `goto fail`
(`case 0x02`, `default`, and the cases left out by the preprocessor). -/
def msf_codec_switch (E : Engine) (sf : STREAMFILE) (v : VGMSTREAM) : Option VGMSTREAM :=
  let codec := msf_codec sf
  if codec = 0x00 ∨ codec = 0x01 then msf_case_pcm sf v
  else if codec = 0x02 then none
  else if codec = 0x03 then msf_case_psx E sf v
  else if (codec = 0x04 ∨ codec = 0x05 ∨ codec = 0x06) ∧ E.VGM_USE_FFMPEG = true then
    msf_case_atrac3 E sf v
  else if codec = 0x07 ∧ E.VGM_USE_FFMPEG = true ∧ E.VGM_USE_MPEG = false then
    msf_case_mp3_ffmpeg E sf v
  else if codec = 0x07 ∧ E.VGM_USE_MPEG = true then msf_case_mpeg E sf v
  else none

/-- Lines 56-62: the descriptor as allocated and stamped with `meta_type` and the sample
rate (48000 when the header field is 0). -/
def msf_allocated (E : Engine) (sf : STREAMFILE) : Option VGMSTREAM :=
  match allocate_vgmstream E (msf_channel_count sf) (msf_loop_flag sf) with
  | none => none
  | some v =>
    let v := { v with meta_type := MetaType.meta_MSF, sample_rate := msf_sample_rate sf }
    some (if v.sample_rate = 0 then { v with sample_rate := 48000 } else v)

/-- The parser `init_vgmstream_msf`; `none` is the `NULL` returned through `fail`. -/
def init_vgmstream_msf (E : Engine) (sf : STREAMFILE) : Option VGMSTREAM :=
  if E.check_extensions sf "msf,at3,mp3" = false then none
  else if (toU32 (sf.read_32bitBE 0x00)) &&& 0xffffff00 ≠ 0x4D534600 then none
  else
    let start_offset : Int := 0x40
    match msf_allocated E sf with
    | none => none
    | some v =>
      match msf_codec_switch E sf v with
      | none => none
      | some v =>
        if E.open_accepts v sf start_offset = false then none
        else some { v with start_offset := some start_offset }

/-! ## `init_vgmstream_ngc_pdt` (ngc_pdt.c) -/

/-- Line 29: `entries = read_16bitBE(0x02,streamFile)`, a `size_t`. -/
def pdt_entries (sf : STREAMFILE) : Nat := toSize (sf.read_16bitBE 0x02)

/-- Line 30: `entries_offset = read_32bitBE(0x10,streamFile)`, an `off_t`. -/
def pdt_entries_offset (sf : STREAMFILE) : Int := sf.read_32bitBE 0x10

/-- Line 31: `coefs_offset = read_32bitBE(0x14,streamFile)`, an `off_t`. -/
def pdt_coefs_offset (sf : STREAMFILE) : Int := sf.read_32bitBE 0x14

/-- Lines 11 and 46: `target_subsong`, with 0 replaced by 1. -/
def pdt_target_subsong (stream_index : Int) : Int :=
  if stream_index = 0 then 1 else stream_index

/-- Line 52: `entry_offset = read_32bitBE(entries_offset + i*0x04,streamFile)`, a
`uint32_t`. -/
def pdt_entry_offset (sf : STREAMFILE) (entries_offset : Int) (i : Nat) : Nat :=
  toU32 (sf.read_32bitBE (entries_offset + (i : Int) * 0x04))

/-- Line 55: `data_offset = read_32bitBE(entry_offset+0x10,streamFile)`; the sum is taken
in `uint32_t`. -/
def pdt_data_offset (sf : STREAMFILE) (entry_offset : Nat) : Nat :=
  toU32 (sf.read_32bitBE ((wrap32 (entry_offset + 0x10) : Nat) : Int))

/-- The locals that the scan of lines 45-74 updates: the buffer `data_offsets` (a function
of the index), the counter `total_subsongs` and `header_offset`. -/
structure PdtScan where
  data_offsets : Nat → Nat
  total_subsongs : Nat
  header_offset : Int

/-- Lines 45 and 48: the locals before the first iteration (the buffer is not initialised in
the source; no slot is read before it is written). -/
def pdt_scan_init : PdtScan :=
  { data_offsets := fun _ => 0, total_subsongs := 0, header_offset := 0 }

/-- Lines 50 and 58-63: `is_unique` after the inner loop over `j < total_subsongs`. -/
def pdt_is_unique (s : PdtScan) (data_offset : Nat) : Bool :=
  (List.range s.total_subsongs).all (fun j => s.data_offsets j != data_offset)

/-- Lines 50-73: one iteration of the outer loop, for slot `i`.  The store of line 67 goes
to `data_offsets[total_subsongs]`; `none` stands for a store outside the `0x2000` slots of
the buffer. -/
def pdt_scan_step (sf : STREAMFILE) (entries_offset target_subsong : Int) (s : PdtScan)
    (i : Nat) : Option PdtScan :=
  let entry_offset := pdt_entry_offset sf entries_offset i
  if entry_offset = 0x00 then some s
  else
    let data_offset := pdt_data_offset sf entry_offset
    if pdt_is_unique s data_offset = false then some s
    else if 0x2000 ≤ s.total_subsongs then none
    else
      let total_subsongs := s.total_subsongs + 1
      some
        { data_offsets := fun j => if j = s.total_subsongs then data_offset else s.data_offsets j
          total_subsongs := total_subsongs
          header_offset :=
            if s.header_offset = 0 ∧ target_subsong = (total_subsongs : Int) then
              (entry_offset : Int)
            else s.header_offset }

/-- Lines 49-74: the outer loop over the slots in the list, in order. -/
def pdt_scan_from (sf : STREAMFILE) (entries_offset target_subsong : Int) :
    List Nat → PdtScan → Option PdtScan
  | [], s => some s
  | i :: rest, s =>
    match pdt_scan_step sf entries_offset target_subsong s i with
    | none => none
    | some s1 => pdt_scan_from sf entries_offset target_subsong rest s1

/-- Lines 45-74: the scan `for (i = 0; i < entries; i++)` from the initial locals. -/
def pdt_scan (sf : STREAMFILE) (entries_offset target_subsong : Int) (entries : Nat) :
    Option PdtScan :=
  pdt_scan_from sf entries_offset target_subsong (List.range entries) pdt_scan_init

/-- Lines 18-27: the four checks on the fixed header. -/
def pdt_header_ok (sf : STREAMFILE) : Bool :=
  if sf.read_16bitBE 0x00 ≠ 0x01 then false
  else if sf.read_32bitBE 0x04 ≠ 0x02 ∧ sf.read_32bitBE 0x04 ≠ 0x04 then false
  else if sf.read_32bitBE 0x08 ≠ 0x7d00 then false
  else if sf.read_32bitBE 0x0c ≠ 0x02 ∧ sf.read_32bitBE 0x0c ≠ 0x04 then false
  else true

/-- Line 83: `flags = read_8bit(header_offset+0x00,streamFile)`, a `uint8_t`. -/
def pdt_flags (sf : STREAMFILE) (header_offset : Int) : Nat :=
  toU8 (sf.read_8bit (header_offset + 0x00))

/-- Line 108: `channel_count = (flags & 0x01) ? 2 : 1`. -/
def pdt_channel_count (flags : Nat) : Int := if (flags &&& 0x01) ≠ 0 then 2 else 1

/-- Line 107: `loop_flag = (flags & 0x02)`. -/
def pdt_loop_flag (flags : Nat) : Int := ((flags &&& 0x02 : Nat) : Int)

/-- Lines 10 and 94-104: `channel2_offset`, read only when bit 0 of the flags is set. -/
def pdt_channel2_offset (sf : STREAMFILE) (header_offset : Int) (flags : Nat) : Int :=
  if (flags &&& 0x01) ≠ 0 then sf.read_32bitBE (header_offset + 0x18) else 0

/-- Lines 84-92 and 116-129: the fields written to the allocated descriptor `v`.  The sum
of line 92 is formed in `size_t` and assigned to an `off_t`. -/
def pdt_describe (E : Engine) (sf : STREAMFILE) (coefs_offset header_offset : Int)
    (total_subsongs : Nat) (v : VGMSTREAM) : VGMSTREAM :=
  let sample_rate := toI32 (sf.read_32bitBE (header_offset + 0x04))
  let nibble_size := toSize (sf.read_32bitBE (header_offset + 0x08))
  let loop_start := toSize (sf.read_32bitBE (header_offset + 0x0c))
  let coef1_entry := toSize (sf.read_16bitBE (header_offset + 0x14))
  let coef1_offset : Int := toI64 (coefs_offset + (coef1_entry : Int) * 0x20)
  let coef_offset := coef1_offset
  let channel_count := pdt_channel_count (pdt_flags sf header_offset)
  let num_samples := E.dsp_nibbles_to_samples nibble_size
  { v with
    sample_rate := sample_rate
    num_samples := num_samples
    loop_start_sample := E.dsp_nibbles_to_samples loop_start
    loop_end_sample := num_samples
    meta_type := MetaType.meta_NGC_PDT
    coding_type := CodingType.coding_NGC_DSP
    layout_type := LayoutType.layout_none
    coef_offset := some coef_offset
    num_streams := (total_subsongs : Int)
    stream_size := ((nibble_size / 2 : Nat) : Int) * channel_count }

/-- Lines 78-141: the sub-header at `header_offset` turned into a descriptor. -/
def pdt_build (E : Engine) (sf : STREAMFILE) (coefs_offset header_offset : Int)
    (total_subsongs : Nat) : Option VGMSTREAM :=
  let flags := pdt_flags sf header_offset
  let channel1_offset : Int := sf.read_32bitBE (header_offset + 0x10)
  let channel2_offset := pdt_channel2_offset sf header_offset flags
  let loop_flag := pdt_loop_flag flags
  let channel_count := pdt_channel_count flags
  match allocate_vgmstream E channel_count loop_flag with
  | none => none
  | some v =>
    let v := pdt_describe E sf coefs_offset header_offset total_subsongs v
    if E.open_accepts v sf channel1_offset = false then none
    else
      let v := { v with start_offset := some channel1_offset }
      if channel_count = 2 then some { v with ch1_offset := some channel2_offset }
      else some v

/-- The parser `init_vgmstream_ngc_pdt`; `none` is the `NULL` returned through `fail`. -/
def init_vgmstream_ngc_pdt (E : Engine) (sf : STREAMFILE) : Option VGMSTREAM :=
  if E.check_extensions sf "pdt" = false then none
  else if pdt_header_ok sf = false then none
  else
    let entries := pdt_entries sf
    let entries_offset := pdt_entries_offset sf
    let coefs_offset := pdt_coefs_offset sf
    if entries > 0x2000 then none
    else
      match pdt_scan sf entries_offset (pdt_target_subsong sf.stream_index) entries with
      | none => none
      | some s => pdt_build E sf coefs_offset s.header_offset s.total_subsongs

/-! ## `init_vgmstream_ngc_pdt_split` (ngc_pdt.c) -/

/-- Lines 161-165: the condition under which the fake header is refused. -/
def pdt_split_refused (sf : STREAMFILE) : Bool :=
  if sf.read_32bitBE 0x00 ≠ 0x50445420 ∧ sf.read_32bitBE 0x04 ≠ 0x44535020 ∧
      sf.read_32bitBE 0x08 ≠ 0x48454144 ∧ sf.read_16bitBE 0x0C ≠ 0x4552 then true
  else false

/-- Lines 179-189: `value*14/8/channel_count` with the quotients of C; the product is an
`int` and wraps to 32 bits. -/
def pdt_split_samples (value channel_count : Int) : Int :=
  Int.tdiv (Int.tdiv (toI32 (value * 14)) 8) channel_count

/-- Line 168: `channel_count = (uint16_t)(read_16bitLE(0x0E,streamFile))`. -/
def pdt_split_channel_count (sf : STREAMFILE) : Int :=
  ((toU16 (sf.read_16bitLE 0x0E) : Nat) : Int)

/-- Line 169: `loop_flag = (read_32bitBE(0x1C,streamFile) != 2)`. -/
def pdt_split_loop_flag (sf : STREAMFILE) : Int :=
  if sf.read_32bitBE 0x1C ≠ 2 then 1 else 0

/-- Lines 178-194: the sample counts for one or two channels; `none` is the `goto fail` of
any other channel count. -/
def pdt_split_sized (sf : STREAMFILE) (v : VGMSTREAM) : Option VGMSTREAM :=
  let channel_count := pdt_split_channel_count sf
  let loop_flag := pdt_split_loop_flag sf
  if channel_count = 1 then
    let v := { v with
      num_samples := Int.tdiv (pdt_split_samples (sf.read_32bitBE 0x18) channel_count) 2 }
    if loop_flag ≠ 0 then
      some { v with
        loop_start_sample :=
          Int.tdiv (pdt_split_samples (sf.read_32bitBE 0x1C) channel_count) 2
        loop_end_sample :=
          Int.tdiv (pdt_split_samples (sf.read_32bitBE 0x18) channel_count) 2 }
    else some v
  else if channel_count = 2 then
    let v := { v with
      num_samples := pdt_split_samples (sf.read_32bitBE 0x18) channel_count }
    if loop_flag ≠ 0 then
      some { v with
        loop_start_sample := pdt_split_samples (sf.read_32bitBE 0x1C) channel_count
        loop_end_sample := pdt_split_samples (sf.read_32bitBE 0x18) channel_count }
    else some v
  else none

/-- Lines 204-207: the offset of the second channel, written when there are two. -/
def pdt_split_second_channel (sf : STREAMFILE) (v : VGMSTREAM) : VGMSTREAM :=
  let start_offset : Int := 0x800
  if pdt_split_channel_count sf = 2 then
    { v with
      ch1_offset := some (((toSize (sf.get_streamfile_size + start_offset) / 2 : Nat) : Int)) }
  else v

/-- The parser `init_vgmstream_ngc_pdt_split`; `none` is the `NULL` returned through
`fail`. -/
def init_vgmstream_ngc_pdt_split (E : Engine) (sf : STREAMFILE) : Option VGMSTREAM :=
  if E.check_extensions sf "pdt" = false then none
  else if pdt_split_refused sf = true then none
  else
    let start_offset : Int := 0x800
    match allocate_vgmstream E (pdt_split_channel_count sf) (pdt_split_loop_flag sf) with
    | none => none
    | some v =>
      let v := { v with sample_rate := sf.read_32bitBE 0x14 }
      match pdt_split_sized sf v with
      | none => none
      | some v =>
        let v := { v with
          meta_type := MetaType.meta_NGC_PDT
          coding_type := CodingType.coding_NGC_DSP
          layout_type := LayoutType.layout_none
          coef_offset := some 0x50 }
        if E.open_accepts v sf start_offset = false then none
        else some (pdt_split_second_channel sf { v with start_offset := some start_offset })

/-! ## Byte-backed sources and a sample engine (used by the worked examples) -/

/-- The byte at `offset` of a byte list, when the offset lies inside it. -/
def byteAt (bytes : List Nat) (offset : Int) : Option Nat :=
  if 0 ≤ offset then bytes[offset.toNat]? else none

/-- The four bytes at `offset`, most significant first, as a signed 32-bit value; `-1` when
one of them lies outside the list. -/
def be32At (bytes : List Nat) (offset : Int) : Int :=
  match byteAt bytes offset, byteAt bytes (offset + 1), byteAt bytes (offset + 2),
      byteAt bytes (offset + 3) with
  | some a, some b, some c, some d =>
    toI32 (((a * 16777216 + b * 65536 + c * 256 + d : Nat) : Int))
  | _, _, _, _ => -1

/-- The two bytes at `offset`, most significant first, as a signed 16-bit value; `-1` when
one of them lies outside the list. -/
def be16At (bytes : List Nat) (offset : Int) : Int :=
  match byteAt bytes offset, byteAt bytes (offset + 1) with
  | some a, some b => (((a * 256 + b : Nat) : Int) + 32768) % 65536 - 32768
  | _, _ => -1

/-- The two bytes at `offset`, least significant first, as a signed 16-bit value; `-1` when
one of them lies outside the list. -/
def le16At (bytes : List Nat) (offset : Int) : Int :=
  match byteAt bytes offset, byteAt bytes (offset + 1) with
  | some a, some b => (((b * 256 + a : Nat) : Int) + 32768) % 65536 - 32768
  | _, _ => -1

/-- The byte at `offset` as a signed 8-bit value; `-1` outside the list. -/
def s8At (bytes : List Nat) (offset : Int) : Int :=
  match byteAt bytes offset with
  | some a => ((a : Int) + 128) % 256 - 128
  | none => -1

/-- A source whose reads are served from a list of bytes. -/
def streamOfBytes (extension : String) (bytes : List Nat) (stream_index : Int) : STREAMFILE :=
  { extension := extension
    read_8bit := s8At bytes
    read_16bitBE := be16At bytes
    read_16bitLE := le16At bytes
    read_32bitBE := be32At bytes
    get_streamfile_size := (bytes.length : Int)
    stream_index := stream_index }

/-- The four bytes of a 32-bit value, most significant first. -/
def be32 (n : Nat) : List Nat :=
  [n / 16777216 % 256, n / 65536 % 256, n / 256 % 256, n % 256]

/-- A 0x40-byte MSF header (magic "MSF" and version byte 0x43) followed by `data`. -/
def msfBytes (codec channel_count data_size sample_rate flags loop_start duration : Nat)
    (data : List Nat) : List Nat :=
  [0x4D, 0x53, 0x46, 0x43] ++ be32 codec ++ be32 channel_count ++ be32 data_size ++
    be32 sample_rate ++ be32 flags ++ be32 loop_start ++ be32 duration ++
    List.replicate 0x20 0 ++ data

/-- An engine with both backends built in that allocates a descriptor for every channel
count of at least 1 and opens every stream; its conversions count 28 samples per 16-byte
frame per channel (PS ADPCM), 1024 samples per block (ATRAC3), 14 samples per 16 nibbles
less the 2 header nibbles of a started frame, on the nibble count taken as a 32-bit signed
value (DSP), and 1152 samples per 417 bytes (MPEG). -/
def sampleEngine : Engine :=
  { VGM_USE_FFMPEG := true
    VGM_USE_MPEG := true
    check_extensions := fun _ _ => true
    allocate_accepts := fun channel_count _ => decide (1 ≤ channel_count)
    open_accepts := fun _ _ _ => true
    ps_bytes_to_samples := fun bytes channels => ((bytes / channels.toNat / 16 * 28 : Nat) : Int)
    atrac3_bytes_to_samples := fun bytes block_align =>
      ((1024 * (bytes / block_align.toNat) : Nat) : Int)
    mpeg_bytes_to_samples := fun bytes _ => ((bytes / 417 * 1152 : Nat) : Int)
    dsp_nibbles_to_samples := fun nibbles =>
      let whole_frames := Int.tdiv (toI32 (nibbles : Int)) 16
      let remainder := Int.tmod (toI32 (nibbles : Int)) 16
      if remainder > 0 then whole_frames * 14 + remainder - 2 else whole_frames * 14
    init_ffmpeg_atrac3_raw := fun _ _ _ _ _ _ _ _ => true
    init_ffmpeg_offset := fun _ _ _ => some (44100, 128000)
    init_mpeg := fun _ _ _ => some (1, 0) }

/-! ## Worked sources -/

/-- A PCM header: codec 0, 2 channels, 40 data bytes, 44100 Hz, no flag set. -/
def msfScenarioA : STREAMFILE :=
  streamOfBytes "msf" (msfBytes 0 2 40 44100 0 0 0 (List.replicate 40 0)) 0

/-- The header of `msfScenarioA` with flag bit 0 set, loop start 8 and loop duration 16. -/
def msfScenarioB : STREAMFILE :=
  streamOfBytes "msf" (msfBytes 0 2 40 44100 1 8 16 (List.replicate 40 0)) 0

/-- The descriptor built from `msfScenarioA`. -/
def msfScenarioA_result : VGMSTREAM :=
  { channels := 2, loop_flag := 0, sample_rate := 44100, num_samples := 10
    meta_type := MetaType.meta_MSF, coding_type := CodingType.coding_PCM16BE
    layout_type := LayoutType.layout_interleave, interleave_block_size := 2
    start_offset := some 64 }

/-- The descriptor built from `msfScenarioB`. -/
def msfScenarioB_result : VGMSTREAM :=
  { msfScenarioA_result with loop_flag := 1, loop_start_sample := 2, loop_end_sample := 6 }

/-- The header of `msfScenarioB` with loop start 0xFFFFFFFF and loop duration 2: the sum of
the two markers is 0x100000001. -/
def msfWrappedLoop : STREAMFILE :=
  streamOfBytes "msf" (msfBytes 0 2 40 44100 1 0xFFFFFFFF 2 (List.replicate 40 0)) 0

/-- The header of `msfScenarioA` with an all-ones sample-rate field. -/
def msfAllOnesRatePcm : STREAMFILE :=
  streamOfBytes "msf" (msfBytes 0 2 40 0xFFFFFFFF 0 0 0 (List.replicate 40 0)) 0

/-- The header of `msfScenarioA` with a zero sample-rate field. -/
def msfZeroRatePcm : STREAMFILE :=
  streamOfBytes "msf" (msfBytes 0 2 40 0 0 0 0 (List.replicate 40 0)) 0

/-- An ATRAC3 header: codec 4, 2 channels, 0x180 data bytes (two blocks of 0xC0), all-ones
sample-rate field, flag bit 0 set, loop start 0xC0 and loop duration 0xC0. -/
def msfAtrac3AllOnesRate : STREAMFILE :=
  streamOfBytes "msf" (msfBytes 4 2 0x180 0xFFFFFFFF 1 0xC0 0xC0 (List.replicate 0x180 0)) 0

/-- The descriptor built from `msfAtrac3AllOnesRate`. -/
def msfAtrac3AllOnesRate_result : VGMSTREAM :=
  { channels := 2, loop_flag := 1, sample_rate := 44100, num_samples := 886
    loop_start_sample := 1024, loop_end_sample := 886
    meta_type := MetaType.meta_MSF, coding_type := CodingType.coding_FFmpeg
    layout_type := LayoutType.layout_none
    codec_data := some (CodecData.atrac3_raw 192 1162)
    start_offset := some 64 }

/-- The descriptor built from `msfAllOnesRatePcm`. -/
def msfAllOnesRatePcm_result : VGMSTREAM :=
  { msfScenarioA_result with sample_rate := -1 }

/-- The conversions of the engine that are defined outside `msf.c` give no fewer samples for
more bytes, and the FFmpeg decoder reports a positive bitrate (the divisor of lines 138-141)
and a sample rate from 0 to below 2^28 (so that the `int64_t` products of lines 138-141 do
not overflow). -/
structure Engine.Monotone (E : Engine) : Prop where
  ps : ∀ (c : Int) (a b : Nat), a ≤ b → E.ps_bytes_to_samples a c ≤ E.ps_bytes_to_samples b c
  atrac3 : ∀ (c : Int) (a b : Nat), a ≤ b →
    E.atrac3_bytes_to_samples a c ≤ E.atrac3_bytes_to_samples b c
  mpeg : ∀ (c : Int) (a b : Nat), a ≤ b →
    E.mpeg_bytes_to_samples a c ≤ E.mpeg_bytes_to_samples b c
  ffmpeg : ∀ (sf : STREAMFILE) (o s sampleRate bitrate : Int),
    E.init_ffmpeg_offset sf o s = some (sampleRate, bitrate) →
      0 ≤ sampleRate ∧ sampleRate < 268435456 ∧ 0 < bitrate

/-! ## The entry table of a PDT container, as the scan sees it -/

/-- The entry pointers of the first `n` slots of the table that are not zero, in table
order. -/
def pdt_live (sf : STREAMFILE) (entries_offset : Int) (n : Nat) : List Nat :=
  ((List.range n).map (pdt_entry_offset sf entries_offset)).filter (fun e => decide (e ≠ 0))

/-- The data offsets (the 32-bit value at entry+0x10) of the non-zero slots among the first
`n`, in table order. -/
def pdt_live_offsets (sf : STREAMFILE) (entries_offset : Int) (n : Nat) : List Nat :=
  (pdt_live sf entries_offset n).map (pdt_data_offset sf)

/-- The state of the locals after the first `m` slots were scanned for `target_subsong`:
the counter is the number of distinct data offsets met, it does not exceed `m`, the first
`total_subsongs` slots of the buffer hold exactly the data offsets met, `header_offset` is
still zero while the counter has not reached the target, and once it has, `header_offset`
is the entry pointer at position `p` of the non-zero slots, whose data offset does not occur
before `p` and is the `target_subsong`-th distinct one. -/
structure PdtScanInv (sf : STREAMFILE) (entries_offset target_subsong : Int) (m : Nat)
    (s : PdtScan) : Prop where
  count : s.total_subsongs = (pdt_live_offsets sf entries_offset m).toFinset.card
  bound : s.total_subsongs ≤ m
  seen : ∀ d, d ∈ pdt_live_offsets sf entries_offset m ↔
    ∃ j, j < s.total_subsongs ∧ s.data_offsets j = d
  pending : (target_subsong < 1 ∨ (s.total_subsongs : Int) < target_subsong) →
    s.header_offset = 0
  found : 1 ≤ target_subsong → target_subsong ≤ (s.total_subsongs : Int) →
    ∃ p e : Nat, (pdt_live sf entries_offset m)[p]? = some e ∧ s.header_offset = (e : Int) ∧
      pdt_data_offset sf e ∉ (pdt_live_offsets sf entries_offset m).take p ∧
      ((((pdt_live_offsets sf entries_offset m).take (p + 1)).toFinset.card : Nat) : Int)
        = target_subsong

/-- The two bytes of a 16-bit value, most significant first. -/
def be16 (n : Nat) : List Nat := [n / 256 % 256, n % 256]

/-- A 0x20-byte PDT sub-header: flags byte, sample rate (0x04), duration in nibbles (0x08),
loop start in nibbles (0x0C), offset of the first channel (0x10), coefficient entry (0x14)
and offset of the second channel (0x18). -/
def pdtSubHeader (flags sample_rate nibble_size loop_start channel1_offset coef1_entry
    channel2_offset : Nat) : List Nat :=
  [flags, 0, 0, 0] ++ be32 sample_rate ++ be32 nibble_size ++ be32 loop_start ++
    be32 channel1_offset ++ be16 coef1_entry ++ [0, 0] ++ be32 channel2_offset ++ [0, 0, 0, 0]

/-- A PDT container with three table slots at 0x20: slot 0 points to the sub-header at 0x40,
slot 1 is zero, slot 2 points to the sub-header at 0x60; both sub-headers have the data
offset 0x100.  The coefficient table is at 0xA0 and 16 data bytes are at 0x100. -/
def pdtScenarioCBytes : List Nat :=
  be16 1 ++ be16 3 ++ be32 2 ++ be32 0x7d00 ++ be32 2 ++ be32 0x20 ++ be32 0xA0 ++
    be32 0x40 ++ be32 0x100 ++
    be32 0x40 ++ be32 0 ++ be32 0x60 ++ List.replicate 20 0 ++
    pdtSubHeader 0x02 32000 0x20 0x10 0x100 0 0 ++
    pdtSubHeader 0x00 32000 0x20 0x10 0x100 0 0 ++
    List.replicate 0x20 0 ++ List.replicate 0x20 0 ++ List.replicate 0x40 0 ++
    List.replicate 0x10 0

/-- The container `pdtScenarioCBytes` opened with a requested subsong index. -/
def pdtScenarioC (stream_index : Int) : STREAMFILE :=
  streamOfBytes "pdt" pdtScenarioCBytes stream_index

/-- The descriptor built from the sub-header at 0x40 of `pdtScenarioCBytes`. -/
def pdtScenarioC_result : VGMSTREAM :=
  { channels := 1, loop_flag := 2, sample_rate := 32000, num_samples := 28
    loop_start_sample := 14, loop_end_sample := 28
    meta_type := MetaType.meta_NGC_PDT, coding_type := CodingType.coding_NGC_DSP
    layout_type := LayoutType.layout_none
    coef_offset := some 0xA0, num_streams := 1, stream_size := 16
    start_offset := some 0x100 }

/-- A PDT fixed header that declares 0x2001 table slots. -/
def pdtTooManyEntries : STREAMFILE :=
  streamOfBytes "pdt"
    (be16 1 ++ be16 0x2001 ++ be32 2 ++ be32 0x7d00 ++ be32 2 ++ be32 0x20 ++ be32 0xA0 ++
      be32 0x40 ++ be32 0x100) 0

/-! ## Further worked sources and assumptions on the engine -/

/-- The routines of the engine that receive the source answer alike on `sf1` and `sf2`:
they do not look at what distinguishes the two. -/
structure Engine.SameOn (E : Engine) (sf1 sf2 : STREAMFILE) : Prop where
  check_extensions : E.check_extensions sf1 = E.check_extensions sf2
  open_accepts : ∀ (v : VGMSTREAM) (o : Int), E.open_accepts v sf1 o = E.open_accepts v sf2 o
  init_ffmpeg_atrac3_raw : E.init_ffmpeg_atrac3_raw sf1 = E.init_ffmpeg_atrac3_raw sf2
  init_ffmpeg_offset : E.init_ffmpeg_offset sf1 = E.init_ffmpeg_offset sf2
  init_mpeg : E.init_mpeg sf1 = E.init_mpeg sf2

/-- The conversions of the engine for PS ADPCM, ATRAC3 and MPEG never return a negative
count, and the FFmpeg decoder reports a positive bitrate (the divisor of lines 138-141) and
a sample rate from 0 to below 2^28. -/
structure Engine.Nonneg (E : Engine) : Prop where
  ps : ∀ (bytes : Nat) (c : Int), 0 ≤ E.ps_bytes_to_samples bytes c
  atrac3 : ∀ (bytes : Nat) (c : Int), 0 ≤ E.atrac3_bytes_to_samples bytes c
  mpeg : ∀ (bytes : Nat) (c : Int), 0 ≤ E.mpeg_bytes_to_samples bytes c
  ffmpeg : ∀ (sf : STREAMFILE) (o s sampleRate bitrate : Int),
    E.init_ffmpeg_offset sf o s = some (sampleRate, bitrate) →
      0 ≤ sampleRate ∧ sampleRate < 268435456 ∧ 0 < bitrate

/-- The sample engine built without the FFmpeg and MPEG backends. -/
def bareEngine : Engine :=
  { sampleEngine with VGM_USE_FFMPEG := false, VGM_USE_MPEG := false }

/-- The header of `msfScenarioA` with codec id 2 (32-bit float PCM). -/
def msfCodec2 : STREAMFILE :=
  streamOfBytes "msf" (msfBytes 2 2 40 44100 0 0 0 (List.replicate 40 0)) 0

/-- The header of `msfScenarioA` with codec id 4 (ATRAC3). -/
def msfCodec4 : STREAMFILE :=
  streamOfBytes "msf" (msfBytes 4 2 40 44100 0 0 0 (List.replicate 40 0)) 0

/-- The header of `msfScenarioA` with an all-ones data-size field; the source is 0x68 bytes
long. -/
def msfSizeFromLength : STREAMFILE :=
  streamOfBytes "msf" (msfBytes 0 2 0xFFFFFFFF 44100 0 0 0 (List.replicate 40 0)) 0

/-- The bytes of `msfScenarioB` with the version byte (0x03) replaced by 0x01. -/
def msfScenarioB_v01 : STREAMFILE :=
  streamOfBytes "msf"
    ([0x4D, 0x53, 0x46, 0x01] ++ (msfBytes 0 2 40 44100 1 8 16 (List.replicate 40 0)).drop 4) 0

/-- The bytes of `msfScenarioA` with the loop markers (0x18..0x1F) holding 8 and 16; the flag
word stays 0. -/
def msfScenarioA_markers : STREAMFILE :=
  streamOfBytes "msf" (msfBytes 0 2 40 44100 0 8 16 (List.replicate 40 0)) 0

/-- The header of `msfScenarioB` with loop start 100, beyond the 40 data bytes, and loop
duration 0. -/
def msfStartBeyondData : STREAMFILE :=
  streamOfBytes "msf" (msfBytes 0 2 40 44100 1 100 0 (List.replicate 40 0)) 0

/-- An ATRAC3 header: codec 4, 2 channels, data size 0, 44100 Hz, no flag set. -/
def msfAtrac3NoData : STREAMFILE :=
  streamOfBytes "msf" (msfBytes 4 2 0 44100 0 0 0 []) 0

/-- A split PDT source whose fake header starts with "PDT " but carries none of "DSP ",
"HEAD" and "ER": one channel (0x0E, little endian), 32000 Hz (0x14), 0x20 nibbles (0x18) and
loop start 0x10 (0x1C). -/
def pdtSplitPartialSignature : STREAMFILE :=
  streamOfBytes "pdt"
    (be32 0x50445420 ++ be32 0 ++ be32 0 ++ be16 0 ++ [0x01, 0x00] ++ be32 0 ++ be32 32000 ++
      be32 0x20 ++ be32 0x10 ++ List.replicate 0x40 0) 0

/-- An ATRAC3 header: codec 4, 2 channels, 0x180 data bytes (two blocks of 0xC0), 44100 Hz,
flag bit 0 set, loop start 0xC0 and loop duration 0xC0: the loop covers the second block. -/
def msfAtrac3Loop : STREAMFILE :=
  streamOfBytes "msf" (msfBytes 4 2 0x180 44100 1 0xC0 0xC0 (List.replicate 0x180 0)) 0

/-- The descriptor built from `pdtSplitPartialSignature`. -/
def pdtSplitPartialSignature_result : VGMSTREAM :=
  { channels := 1, loop_flag := 1, sample_rate := 32000, num_samples := 28
    loop_start_sample := 14, loop_end_sample := 28
    meta_type := MetaType.meta_NGC_PDT, coding_type := CodingType.coding_NGC_DSP
    layout_type := LayoutType.layout_none
    coef_offset := some 0x50, start_offset := some 0x800 }

/-! ## Sample counts before they are stored, and the subsong table as the claims word it -/

/-- The sample count, before it is stored in its 32-bit field, that the case of the header's
codec converts from `bytes` (lines 71, 89, 109, 138 and 158), without the pre-roll; 0 where
no case applies or the decoder does not start. -/
def msf_sample_count (E : Engine) (sf : STREAMFILE) (bytes : Nat) : Int :=
  let codec := msf_codec sf
  let channel_count := msf_channel_count sf
  if codec = 0 ∨ codec = 1 then pcm_bytes_to_samples bytes channel_count 16
  else if codec = 3 then E.ps_bytes_to_samples bytes channel_count
  else if codec = 4 ∨ codec = 5 ∨ codec = 6 then
    E.atrac3_bytes_to_samples bytes (msf_block_align codec channel_count)
  else if codec = 7 ∧ E.VGM_USE_FFMPEG = true ∧ E.VGM_USE_MPEG = false then
    match E.init_ffmpeg_offset sf 0x40 sf.get_streamfile_size with
    | some (sampleRate, bitrate) => msf_mp3_samples bytes sampleRate bitrate
    | none => 0
  else if codec = 7 ∧ E.VGM_USE_MPEG = true then
    match E.init_mpeg sf 0x40 channel_count with
    | some (_, mpeg_data) => E.mpeg_bytes_to_samples bytes mpeg_data
    | none => 0
  else 0

/-- The pre-roll that the case of the header's codec subtracts from `num_samples` and from
the loop end: 1162 for the ATRAC3 ids 4, 5 and 6 (lines 107, 109 and 122), none otherwise. -/
def msf_pre_roll (sf : STREAMFILE) : Int :=
  if msf_codec sf = 4 ∨ msf_codec sf = 5 ∨ msf_codec sf = 6 then 1162 else 0

/-- The number of table slots that a PDT container declares: the 16-bit word at 0x02. -/
def pdtSlotCount (sf : STREAMFILE) : Nat :=
  (sf.read_16bitBE 0x02 % 18446744073709551616).toNat

/-- The entry pointer in slot `i` of the table of a PDT container: the 32-bit word at
`4*i` past the table offset, itself the word at 0x10. -/
def pdtSlotPointer (sf : STREAMFILE) (i : Nat) : Nat :=
  (sf.read_32bitBE (sf.read_32bitBE 0x10 + 4 * (i : Int)) % 4294967296).toNat

/-- The data offset of the sub-header that the entry pointer `e` leads to: the 32-bit word
at `e + 0x10`, the address being taken in 32 bits. -/
def pdtSlotDataOffset (sf : STREAMFILE) (e : Nat) : Nat :=
  (sf.read_32bitBE (((e + 16) % 4294967296 : Nat) : Int) % 4294967296).toNat

/-- The entry pointers of the declared slots that are not zero, in table order. -/
def pdtLivePointers (sf : STREAMFILE) : List Nat :=
  ((List.range (pdtSlotCount sf)).map (pdtSlotPointer sf)).filter (fun e => decide (e ≠ 0))

/-- The data offsets of the non-zero slots, in table order. -/
def pdtLiveDataOffsets (sf : STREAMFILE) : List Nat :=
  (pdtLivePointers sf).map (pdtSlotDataOffset sf)

/-- A PS ADPCM header: codec 3, 1 channel, data-size field 0xFFFFFFF0, 44100 Hz, flag bit 0
set, loop start 0 and loop duration 0x100. -/
def msfPsxHuge : STREAMFILE :=
  streamOfBytes "msf" (msfBytes 3 1 0xFFFFFFF0 44100 1 0 0x100 []) 0

/-- An ATRAC3 header: codec 4, 1 channel, data-size field 0xFFFFFFF0, 44100 Hz, no flag. -/
def msfAtrac3Huge : STREAMFILE :=
  streamOfBytes "msf" (msfBytes 4 1 0xFFFFFFF0 44100 0 0 0 []) 0

/-- The first 0x20 bytes of a PCM header (codec 0, 2 channels, all-ones data-size field,
44100 Hz, no flag): a source shorter than the 0x40-byte header. -/
def msfShortSource : STREAMFILE :=
  streamOfBytes "msf" ((msfBytes 0 2 0xFFFFFFFF 44100 0 0 0 []).take 0x20) 0

/-- The header of `msfSizeFromLength` at the start of a source of 0x100000068 bytes. -/
def msfLongSource : STREAMFILE :=
  { msfSizeFromLength with get_streamfile_size := 0x100000068 }

/-- A PDT container with four table slots at 0x20: slot 0 points to the sub-header at 0x40,
slot 1 is zero, slot 2 points to the sub-header at 0x60 and slot 3 to the one at 0x80.  The
sub-headers at 0x40 and 0x60 share the data offset 0x100; the one at 0x80 (two channels,
22050 Hz) has the data offset 0x200.  The coefficient table is at 0xA0. -/
def pdtScenarioDBytes : List Nat :=
  be16 1 ++ be16 4 ++ be32 2 ++ be32 0x7d00 ++ be32 2 ++ be32 0x20 ++ be32 0xA0 ++
    be32 0x40 ++ be32 0x100 ++
    be32 0x40 ++ be32 0 ++ be32 0x60 ++ be32 0x80 ++ List.replicate 16 0 ++
    pdtSubHeader 0x02 32000 0x20 0x10 0x100 0 0 ++
    pdtSubHeader 0x00 32000 0x20 0x10 0x100 0 0 ++
    pdtSubHeader 0x01 22050 0x40 0x10 0x200 1 0x210 ++
    List.replicate 0x40 0 ++ List.replicate 0x20 0

/-- The container `pdtScenarioDBytes` opened with a requested subsong index. -/
def pdtScenarioD (stream_index : Int) : STREAMFILE :=
  streamOfBytes "pdt" pdtScenarioDBytes stream_index

/-- The descriptor built from the sub-header at 0x80 of `pdtScenarioDBytes`. -/
def pdtScenarioD_result : VGMSTREAM :=
  { channels := 2, loop_flag := 0, sample_rate := 22050, num_samples := 56
    loop_start_sample := 14, loop_end_sample := 56
    meta_type := MetaType.meta_NGC_PDT, coding_type := CodingType.coding_NGC_DSP
    layout_type := LayoutType.layout_none
    coef_offset := some 0xC0, num_streams := 2, stream_size := 64
    start_offset := some 0x200, ch1_offset := some 0x210 }

/-! ## Structure of a successful `init_vgmstream_msf` -/

theorem allocate_vgmstream_some {E : Engine} {c l : Int} {v : VGMSTREAM}
    (h : allocate_vgmstream E c l = some v) :
    v = { channels := c, loop_flag := l } := by
  unfold allocate_vgmstream at h
  split at h
  · exact (Option.some.inj h).symm
  · exact absurd h (by simp)

theorem msf_allocated_some {E : Engine} {sf : STREAMFILE} {v : VGMSTREAM}
    (h : msf_allocated E sf = some v) :
    v.channels = msf_channel_count sf ∧ v.loop_flag = msf_loop_flag sf ∧
      v.sample_rate = (if msf_sample_rate sf = 0 then 48000 else msf_sample_rate sf) ∧
      v.num_samples = 0 ∧ v.loop_start_sample = 0 ∧ v.loop_end_sample = 0 := by
  unfold msf_allocated at h
  split at h
  · exact absurd h (by simp)
  · rename_i v0 hv0
    have h0 := allocate_vgmstream_some hv0
    subst h0
    simp only [Option.some.injEq] at h
    subst h
    by_cases hs : msf_sample_rate sf = 0 <;> simp [hs]

theorem msf_case_pcm_some {sf : STREAMFILE} {v w : VGMSTREAM}
    (h : msf_case_pcm sf v = some w) :
    w.channels = v.channels ∧ w.loop_flag = v.loop_flag ∧ w.sample_rate = v.sample_rate ∧
      w.num_samples
        = toI32 (pcm_bytes_to_samples (msf_data_size sf) (msf_channel_count sf) 16) ∧
      (msf_loop_flag sf ≠ 0 →
        w.loop_start_sample =
            toI32 (pcm_bytes_to_samples (msf_loop_start sf) (msf_channel_count sf) 16) ∧
          w.loop_end_sample =
            toI32 (pcm_bytes_to_samples (msf_loop_end sf) (msf_channel_count sf) 16)) := by
  unfold msf_case_pcm at h
  by_cases hl : msf_loop_flag sf = 0
  · simp only [hl, ne_eq, not_true_eq_false, if_false, Option.some.injEq] at h
    subst h
    simp [hl]
  · simp only [hl, ne_eq, not_false_eq_true, if_true, Option.some.injEq] at h
    subst h
    simp [hl]

theorem msf_case_psx_some {E : Engine} {sf : STREAMFILE} {v w : VGMSTREAM}
    (h : msf_case_psx E sf v = some w) :
    w.channels = v.channels ∧ w.loop_flag = v.loop_flag ∧ w.sample_rate = v.sample_rate ∧
      w.num_samples
        = toI32 (E.ps_bytes_to_samples (msf_data_size sf) (msf_channel_count sf)) ∧
      (msf_loop_flag sf ≠ 0 →
        w.loop_start_sample
            = toI32 (E.ps_bytes_to_samples (msf_loop_start sf) (msf_channel_count sf)) ∧
          w.loop_end_sample =
            toI32 (E.ps_bytes_to_samples (msf_loop_end sf) (msf_channel_count sf))) := by
  unfold msf_case_psx at h
  by_cases hl : msf_loop_flag sf = 0
  · simp only [hl, ne_eq, not_true_eq_false, if_false, Option.some.injEq] at h
    subst h
    simp [hl]
  · simp only [hl, ne_eq, not_false_eq_true, if_true, Option.some.injEq] at h
    subst h
    simp [hl]

theorem msf_case_atrac3_some {E : Engine} {sf : STREAMFILE} {v w : VGMSTREAM}
    (h : msf_case_atrac3 E sf v = some w) :
    w.channels = v.channels ∧ w.loop_flag = v.loop_flag ∧
      w.sample_rate = (if toU32 v.sample_rate = 0xFFFFFFFF then 44100 else v.sample_rate) ∧
      w.codec_data =
        some (CodecData.atrac3_raw (msf_block_align (msf_codec sf) v.channels) 1162) ∧
      w.num_samples =
        toI32 (E.atrac3_bytes_to_samples (msf_data_size sf)
          (msf_block_align (msf_codec sf) v.channels) - 1162) ∧
      (msf_loop_flag sf ≠ 0 →
        w.loop_start_sample =
            toI32 (E.atrac3_bytes_to_samples (msf_loop_start sf)
              (msf_block_align (msf_codec sf) v.channels)) ∧
          w.loop_end_sample =
            toI32 (E.atrac3_bytes_to_samples (msf_loop_end sf)
              (msf_block_align (msf_codec sf) v.channels) - 1162)) := by
  unfold msf_case_atrac3 at h
  have hd : msf_encoder_delay = 1162 := by decide
  by_cases hs : toU32 v.sample_rate = 0xFFFFFFFF
  · simp only [if_pos hs] at h
    split at h
    · exact absurd h (by simp)
    · by_cases hl : msf_loop_flag sf = 0
      · simp only [hl, ne_eq, not_true_eq_false, if_false, Option.some.injEq] at h
        subst h
        simp [hs, hl, hd]
      · simp only [hl, ne_eq, not_false_eq_true, if_true, Option.some.injEq] at h
        subst h
        simp [hs, hl, hd]
  · simp only [if_neg hs] at h
    split at h
    · exact absurd h (by simp)
    · by_cases hl : msf_loop_flag sf = 0
      · simp only [hl, ne_eq, not_true_eq_false, if_false, Option.some.injEq] at h
        subst h
        simp [hs, hl, hd]
      · simp only [hl, ne_eq, not_false_eq_true, if_true, Option.some.injEq] at h
        subst h
        simp [hs, hl, hd]

theorem msf_case_mp3_ffmpeg_some {E : Engine} {sf : STREAMFILE} {v w : VGMSTREAM}
    (h : msf_case_mp3_ffmpeg E sf v = some w) :
    w.channels = v.channels ∧ w.loop_flag = v.loop_flag ∧ w.sample_rate = v.sample_rate ∧
      ∃ sampleRate bitrate : Int,
        E.init_ffmpeg_offset sf 0x40 sf.get_streamfile_size = some (sampleRate, bitrate) ∧
        w.num_samples = toI32 (msf_mp3_samples (msf_data_size sf) sampleRate bitrate) ∧
        (msf_loop_flag sf ≠ 0 →
          w.loop_start_sample
              = toI32 (msf_mp3_samples (msf_loop_start sf) sampleRate bitrate) ∧
            w.loop_end_sample
              = toI32 (msf_mp3_samples (msf_loop_end sf) sampleRate bitrate)) := by
  unfold msf_case_mp3_ffmpeg at h
  simp only at h
  split at h
  · exact absurd h (by simp)
  · rename_i sr br hinit
    by_cases hl : msf_loop_flag sf = 0
    · simp only [hl, ne_eq, not_true_eq_false, if_false, Option.some.injEq] at h
      subst h
      exact ⟨rfl, rfl, rfl, sr, br, hinit, rfl, fun hc => absurd hl hc⟩
    · simp only [hl, ne_eq, not_false_eq_true, if_true, Option.some.injEq] at h
      subst h
      exact ⟨rfl, rfl, rfl, sr, br, hinit, rfl, fun _ => ⟨rfl, rfl⟩⟩

theorem msf_case_mpeg_some {E : Engine} {sf : STREAMFILE} {v w : VGMSTREAM}
    (h : msf_case_mpeg E sf v = some w) :
    w.channels = v.channels ∧ w.loop_flag = v.loop_flag ∧ w.sample_rate = v.sample_rate ∧
      ∃ tag mpeg_data : Int,
        E.init_mpeg sf 0x40 v.channels = some (tag, mpeg_data) ∧
        w.num_samples = toI32 (E.mpeg_bytes_to_samples (msf_data_size sf) mpeg_data) ∧
        (msf_loop_flag sf ≠ 0 →
          w.loop_start_sample
              = toI32 (E.mpeg_bytes_to_samples (msf_loop_start sf) mpeg_data) ∧
            w.loop_end_sample
              = toI32 (E.mpeg_bytes_to_samples (msf_loop_end sf) mpeg_data)) := by
  unfold msf_case_mpeg at h
  simp only at h
  split at h
  · exact absurd h (by simp)
  · rename_i tag md hinit
    by_cases hl : msf_loop_flag sf = 0
    · simp only [hl, ne_eq, not_true_eq_false, if_false, Option.some.injEq] at h
      subst h
      exact ⟨rfl, rfl, rfl, tag, md, hinit, rfl, fun hc => absurd hl hc⟩
    · simp only [hl, ne_eq, not_false_eq_true, if_true, Option.some.injEq] at h
      subst h
      exact ⟨rfl, rfl, rfl, tag, md, hinit, rfl, fun _ => ⟨rfl, rfl⟩⟩

/-- A successful `init_vgmstream_msf` passed the allocation and the codec switch, and opening
the stream only recorded the start offset. -/
theorem init_vgmstream_msf_some {E : Engine} {sf : STREAMFILE} {r : VGMSTREAM}
    (h : init_vgmstream_msf E sf = some r) :
    ∃ v w, msf_allocated E sf = some v ∧ msf_codec_switch E sf v = some w ∧
      r.channels = w.channels ∧ r.loop_flag = w.loop_flag ∧ r.sample_rate = w.sample_rate ∧
      r.num_samples = w.num_samples ∧ r.loop_start_sample = w.loop_start_sample ∧
      r.loop_end_sample = w.loop_end_sample ∧ r.codec_data = w.codec_data := by
  unfold init_vgmstream_msf at h
  simp only at h
  split at h
  · exact absurd h (by simp)
  · split at h
    · exact absurd h (by simp)
    · split at h
      · exact absurd h (by simp)
      · rename_i v hv
        split at h
        · exact absurd h (by simp)
        · rename_i w hw
          split at h
          · exact absurd h (by simp)
          · simp only [Option.some.injEq] at h
            subst h
            exact ⟨v, w, hv, hw, rfl, rfl, rfl, rfl, rfl, rfl, rfl⟩

/-- The branch of the `switch (codec)` that produced a descriptor. -/
theorem msf_codec_switch_cases {E : Engine} {sf : STREAMFILE} {v w : VGMSTREAM}
    (h : msf_codec_switch E sf v = some w) :
    ((msf_codec sf = 0 ∨ msf_codec sf = 1) ∧ msf_case_pcm sf v = some w) ∨
    (msf_codec sf = 3 ∧ msf_case_psx E sf v = some w) ∨
    ((msf_codec sf = 4 ∨ msf_codec sf = 5 ∨ msf_codec sf = 6) ∧ E.VGM_USE_FFMPEG = true ∧
      msf_case_atrac3 E sf v = some w) ∨
    (msf_codec sf = 7 ∧ msf_case_mp3_ffmpeg E sf v = some w) ∨
    (msf_codec sf = 7 ∧ msf_case_mpeg E sf v = some w) := by
  unfold msf_codec_switch at h
  simp only at h
  split_ifs at h with h1 h2 h3 h4 h5 h6
  · exact Or.inl ⟨h1, h⟩
  · exact Or.inr (Or.inl ⟨h3, h⟩)
  · exact Or.inr (Or.inr (Or.inl ⟨h4.1, h4.2, h⟩))
  · exact Or.inr (Or.inr (Or.inr (Or.inl ⟨h5.1, h⟩)))
  · exact Or.inr (Or.inr (Or.inr (Or.inr ⟨h6.1, h⟩)))

/-- The descriptor keeps the channel count and the loop flag computed from the header. -/
theorem init_vgmstream_msf_flags {E : Engine} {sf : STREAMFILE} {r : VGMSTREAM}
    (h : init_vgmstream_msf E sf = some r) :
    r.channels = msf_channel_count sf ∧ r.loop_flag = msf_loop_flag sf := by
  obtain ⟨v, w, hv, hw, hc, hl, -⟩ := init_vgmstream_msf_some h
  have ha := msf_allocated_some hv
  rcases msf_codec_switch_cases hw with hk | hk | hk | hk | hk
  · have hs := msf_case_pcm_some hk.2
    exact ⟨by rw [hc, hs.1, ha.1], by rw [hl, hs.2.1, ha.2.1]⟩
  · have hs := msf_case_psx_some hk.2
    exact ⟨by rw [hc, hs.1, ha.1], by rw [hl, hs.2.1, ha.2.1]⟩
  · have hs := msf_case_atrac3_some hk.2.2
    exact ⟨by rw [hc, hs.1, ha.1], by rw [hl, hs.2.1, ha.2.1]⟩
  · have hs := msf_case_mp3_ffmpeg_some hk.2
    exact ⟨by rw [hc, hs.1, ha.1], by rw [hl, hs.2.1, ha.2.1]⟩
  · have hs := msf_case_mpeg_some hk.2
    exact ⟨by rw [hc, hs.1, ha.1], by rw [hl, hs.2.1, ha.2.1]⟩

/-- The sample rate of the descriptor: the header value with 0 replaced by 48000, except
that the ATRAC3 case replaces an all-ones value by 44100. -/
theorem init_vgmstream_msf_sample_rate {E : Engine} {sf : STREAMFILE} {r : VGMSTREAM}
    (h : init_vgmstream_msf E sf = some r) :
    let base : Int := if msf_sample_rate sf = 0 then 48000 else msf_sample_rate sf
    ((msf_codec sf = 4 ∨ msf_codec sf = 5 ∨ msf_codec sf = 6) →
        r.sample_rate = (if toU32 base = 0xFFFFFFFF then 44100 else base)) ∧
      (¬ (msf_codec sf = 4 ∨ msf_codec sf = 5 ∨ msf_codec sf = 6) → r.sample_rate = base) := by
  intro base
  obtain ⟨v, w, hv, hw, -, -, hr, -⟩ := init_vgmstream_msf_some h
  have ha := (msf_allocated_some hv).2.2.1
  rcases msf_codec_switch_cases hw with hk | hk | hk | hk | hk
  · have hs := (msf_case_pcm_some hk.2).2.2.1
    refine ⟨fun hc => ?_, fun _ => by rw [hr, hs, ha]⟩
    omega
  · have hs := (msf_case_psx_some hk.2).2.2.1
    refine ⟨fun hc => ?_, fun _ => by rw [hr, hs, ha]⟩
    omega
  · have hs := (msf_case_atrac3_some hk.2.2).2.2.1
    exact ⟨fun _ => by rw [hr, hs, ha], fun hc => absurd hk.1 hc⟩
  · have hs := (msf_case_mp3_ffmpeg_some hk.2).2.2.1
    refine ⟨fun hc => ?_, fun _ => by rw [hr, hs, ha]⟩
    omega
  · have hs := (msf_case_mpeg_some hk.2).2.2.1
    refine ⟨fun hc => ?_, fun _ => by rw [hr, hs, ha]⟩
    omega

/-- C8. In `init_vgmstream_msf`, an accepted header whose sample-rate field (0x10) is 0 gets
the sample rate 48000, and the sample rate of an accepted header is never 0. -/
theorem msf_sample_rate_fallback (E : Engine) (sf : STREAMFILE) (r : VGMSTREAM)
    (h : init_vgmstream_msf E sf = some r) :
    (toU32 (sf.read_32bitBE 0x10) = 0 → r.sample_rate = 48000) ∧ r.sample_rate ≠ 0 := by
  have hs := init_vgmstream_msf_sample_rate h
  simp only at hs
  have hz : toU32 (sf.read_32bitBE 0x10) = 0 → msf_sample_rate sf = 0 := by
    unfold toU32 msf_sample_rate toI32
    omega
  have h48 : toU32 (48000 : Int) ≠ 0xFFFFFFFF := by decide
  by_cases hc : msf_codec sf = 4 ∨ msf_codec sf = 5 ∨ msf_codec sf = 6
  · have h1 := hs.1 hc
    constructor
    · intro hf
      rw [h1, if_pos (hz hf), if_neg h48]
    · rw [h1]
      by_cases h0 : msf_sample_rate sf = 0
      · rw [if_pos h0, if_neg h48]
        decide
      · rw [if_neg h0]
        split_ifs
        · decide
        · exact h0
  · have h1 := hs.2 hc
    constructor
    · intro hf
      rw [h1, if_pos (hz hf)]
    · rw [h1]
      split_ifs with h0
      · decide
      · exact h0

theorem msf_sample_rate_fallback_witness :
    init_vgmstream_msf sampleEngine msfScenarioA = some msfScenarioA_result ∧
      ((toU32 (msfScenarioA.read_32bitBE 0x10) = 0 → msfScenarioA_result.sample_rate = 48000) ∧
        msfScenarioA_result.sample_rate ≠ 0) :=
  ⟨by decide, msf_sample_rate_fallback sampleEngine msfScenarioA msfScenarioA_result (by decide)⟩

/-- C9, refuted as stated. With an all-ones sample-rate field the ATRAC3 header
`msfAtrac3AllOnesRate` gets the sample rate 44100 and the PCM header `msfAllOnesRatePcm`
keeps the all-ones value (-1 as an `int`), while the PCM header `msfZeroRatePcm` with a zero
field gets 48000. -/
theorem msf_all_ones_sample_rate_is_not_48000 :
    (init_vgmstream_msf sampleEngine msfAtrac3AllOnesRate).map VGMSTREAM.sample_rate
        = some 44100 ∧
      (init_vgmstream_msf sampleEngine msfAllOnesRatePcm).map VGMSTREAM.sample_rate
        = some (-1) ∧
      (init_vgmstream_msf sampleEngine msfZeroRatePcm).map VGMSTREAM.sample_rate
        = some 48000 := by
  decide

/-- C9, amended. In `init_vgmstream_msf`, an accepted header whose sample-rate field (0x10)
is all-ones gets the sample rate 44100 when the codec id is 4, 5 or 6 (ATRAC3), and keeps the
all-ones value (-1 as an `int`) for every other supported codec. -/
theorem msf_all_ones_sample_rate (E : Engine) (sf : STREAMFILE) (r : VGMSTREAM)
    (h : init_vgmstream_msf E sf = some r)
    (hf : toU32 (sf.read_32bitBE 0x10) = 0xFFFFFFFF) :
    ((msf_codec sf = 4 ∨ msf_codec sf = 5 ∨ msf_codec sf = 6) → r.sample_rate = 44100) ∧
      (¬ (msf_codec sf = 4 ∨ msf_codec sf = 5 ∨ msf_codec sf = 6) → r.sample_rate = -1) := by
  have hs := init_vgmstream_msf_sample_rate h
  simp only at hs
  have hm : msf_sample_rate sf = -1 := by
    unfold toU32 at hf
    unfold msf_sample_rate toI32
    omega
  have h0 : msf_sample_rate sf ≠ 0 := by rw [hm]; decide
  have h1 : toU32 (-1 : Int) = 0xFFFFFFFF := by decide
  rw [if_neg h0, hm, if_pos h1] at hs
  exact hs

theorem msf_all_ones_sample_rate_witness :
    init_vgmstream_msf sampleEngine msfAtrac3AllOnesRate = some msfAtrac3AllOnesRate_result ∧
      toU32 (msfAtrac3AllOnesRate.read_32bitBE 0x10) = 0xFFFFFFFF ∧
      (((msf_codec msfAtrac3AllOnesRate = 4 ∨ msf_codec msfAtrac3AllOnesRate = 5 ∨
            msf_codec msfAtrac3AllOnesRate = 6) →
          msfAtrac3AllOnesRate_result.sample_rate = 44100) ∧
        (¬ (msf_codec msfAtrac3AllOnesRate = 4 ∨ msf_codec msfAtrac3AllOnesRate = 5 ∨
            msf_codec msfAtrac3AllOnesRate = 6) →
          msfAtrac3AllOnesRate_result.sample_rate = -1)) :=
  ⟨by decide, by decide,
    msf_all_ones_sample_rate sampleEngine msfAtrac3AllOnesRate msfAtrac3AllOnesRate_result
      (by decide) (by decide)⟩

/-- The raw loop end of lines 49-51 never exceeds `data_size`. -/
theorem msf_loop_end_le_data_size (sf : STREAMFILE) (hl : msf_loop_flag sf ≠ 0) :
    msf_loop_end sf ≤ msf_data_size sf := by
  unfold msf_loop_end msf_clamp_loop_end
  rw [if_pos hl]
  simp only
  split_ifs with hc
  · exact le_refl _
  · omega

/-- When the sum of the two raw markers exceeds `data_size` without exceeding 32 bits, the raw
loop end of lines 49-51 is `data_size`. -/
theorem msf_loop_end_eq_data_size (sf : STREAMFILE) (hl : msf_loop_flag sf ≠ 0)
    (hw : toU32 (sf.read_32bitBE 0x18) + toU32 (sf.read_32bitBE 0x1C) < 4294967296)
    (hx : msf_data_size sf < toU32 (sf.read_32bitBE 0x18) + toU32 (sf.read_32bitBE 0x1C)) :
    msf_loop_end sf = msf_data_size sf := by
  unfold msf_loop_end msf_clamp_loop_end wrap32
  rw [if_pos hl]
  simp only
  rw [Nat.mod_eq_of_lt hw, if_pos hx]

theorem toI32_of_range {x : Int} (h0 : -2147483648 ≤ x) (h1 : x < 2147483648) :
    toI32 x = x := by
  unfold toI32
  omega

theorem toI64_of_range {x : Int} (h0 : -9223372036854775808 ≤ x)
    (h1 : x < 9223372036854775808) : toI64 x = x := by
  unfold toI64
  omega

theorem msf_data_size_lt (sf : STREAMFILE) : msf_data_size sf < 4294967296 := by
  unfold msf_data_size toU32
  simp only
  split_ifs <;> omega

/-- The PCM rule on a 32-bit byte count gives a count that fits the 32-bit signed field. -/
theorem pcm_bytes_to_samples_fits (bytes : Nat) (channels : Int) (hb : bytes < 4294967296) :
    0 ≤ pcm_bytes_to_samples bytes channels 16 ∧
      pcm_bytes_to_samples bytes channels 16 < 2147483648 := by
  unfold pcm_bytes_to_samples
  have h2 : (16 / 8 : Nat) = 2 := by decide
  rw [h2]
  have hle : bytes / (channels.toNat * 2) ≤ bytes / 2 := by
    rcases Nat.eq_zero_or_pos channels.toNat with hz | hp
    · rw [hz]
      simp
    · exact Nat.div_le_div_left (by omega) (by norm_num)
  have h3 : bytes / 2 < 2147483648 := by omega
  constructor
  · exact Int.ofNat_nonneg _
  · have : bytes / (channels.toNat * 2) < 2147483648 := lt_of_le_of_lt hle h3
    exact_mod_cast this

/-- C3, the code at a failing input. The header `msfWrappedLoop` (codec 0, 2 channels, 40
data bytes, flag bit 0) has loop start 0xFFFFFFFF and loop duration 2, so start plus duration
exceeds the data size; the descriptor has looping enabled, `num_samples` 10 and
`loop_end_sample` 0, because the 32-bit sum of line 49 wraps to 1 and line 50 does not clamp
it. -/
theorem msf_wrapped_loop_end_not_clamped :
    toU32 (msfWrappedLoop.read_32bitBE 0x18) + toU32 (msfWrappedLoop.read_32bitBE 0x1C)
        = 0x100000001 ∧
      msf_data_size msfWrappedLoop = 40 ∧
      (init_vgmstream_msf sampleEngine msfWrappedLoop).map
          (fun r => (r.loop_flag, r.num_samples, r.loop_end_sample)) = some (1, 10, 0) := by
  decide

/-- The PCM rule gives no fewer samples for more bytes. -/
theorem pcm_bytes_to_samples_mono (channels : Int) (bits : Nat) {a b : Nat} (hab : a ≤ b) :
    pcm_bytes_to_samples a channels bits ≤ pcm_bytes_to_samples b channels bits := by
  unfold pcm_bytes_to_samples
  exact Int.ofNat_le.mpr (Nat.div_le_div_right hab)

/-- The quotient of lines 138-141 without reduction gives no fewer samples for more bytes,
for a sample rate and a bitrate that are not negative. -/
theorem mp3_ffmpeg_samples_mono {a b : Nat} (hab : a ≤ b) {sampleRate bitrate : Int}
    (hs : 0 ≤ sampleRate) (hb : 0 ≤ bitrate) :
    Int.tdiv ((a : Int) * sampleRate * 8) bitrate
      ≤ Int.tdiv ((b : Int) * sampleRate * 8) bitrate := by
  have h0 : (0 : Int) ≤ (a : Int) := Int.ofNat_nonneg a
  have hab2 : (a : Int) ≤ (b : Int) := Int.ofNat_le.mpr hab
  have h1 : 0 ≤ (a : Int) * sampleRate * 8 := by positivity
  have h2 : (a : Int) * sampleRate * 8 ≤ (b : Int) * sampleRate * 8 := by nlinarith
  rw [Int.tdiv_eq_ediv h1 hb, Int.tdiv_eq_ediv (le_trans h1 h2) hb]
  rcases eq_or_lt_of_le hb with hz | hp
  · rw [← hz]
    simp
  · exact Int.ediv_le_ediv hp h2

/-- For a 32-bit byte count and a sample rate from 0 to below 2^28 the `int64_t` products of
lines 138-141 do not overflow. -/
theorem msf_mp3_samples_eq {bytes : Nat} (hb : bytes < 4294967296) {sampleRate bitrate : Int}
    (hs : 0 ≤ sampleRate) (hs2 : sampleRate < 268435456) :
    msf_mp3_samples bytes sampleRate bitrate
      = Int.tdiv ((bytes : Int) * sampleRate * 8) bitrate := by
  unfold msf_mp3_samples
  have h0 : (0 : Int) ≤ (bytes : Int) := Int.ofNat_nonneg bytes
  have h1 : (bytes : Int) ≤ 4294967295 := by omega
  have h2 : (bytes : Int) * sampleRate ≤ 4294967295 * 268435455 :=
    mul_le_mul h1 (by omega) hs (by norm_num)
  have h3 : 0 ≤ (bytes : Int) * sampleRate := mul_nonneg h0 hs
  have h4 : toI64 ((bytes : Int) * sampleRate) = (bytes : Int) * sampleRate :=
    toI64_of_range (by omega) (by omega)
  rw [h4]
  have h5 : toI64 ((bytes : Int) * sampleRate * 8) = (bytes : Int) * sampleRate * 8 :=
    toI64_of_range (by omega) (by omega)
  rw [h5]

/-- The branch of the `switch (codec)` that produced a descriptor, with the preprocessor
switches under which the two cases of codec id 7 are compiled. -/
theorem msf_codec_switch_branch {E : Engine} {sf : STREAMFILE} {v w : VGMSTREAM}
    (h : msf_codec_switch E sf v = some w) :
    ((msf_codec sf = 0 ∨ msf_codec sf = 1) ∧ msf_case_pcm sf v = some w) ∨
    (msf_codec sf = 3 ∧ msf_case_psx E sf v = some w) ∨
    ((msf_codec sf = 4 ∨ msf_codec sf = 5 ∨ msf_codec sf = 6) ∧
      msf_case_atrac3 E sf v = some w) ∨
    ((msf_codec sf = 7 ∧ E.VGM_USE_FFMPEG = true ∧ E.VGM_USE_MPEG = false) ∧
      msf_case_mp3_ffmpeg E sf v = some w) ∨
    ((msf_codec sf = 7 ∧ E.VGM_USE_MPEG = true) ∧ msf_case_mpeg E sf v = some w) := by
  unfold msf_codec_switch at h
  simp only at h
  split_ifs at h with h1 h2 h3 h4 h5 h6
  · exact Or.inl ⟨h1, h⟩
  · exact Or.inr (Or.inl ⟨h3, h⟩)
  · exact Or.inr (Or.inr (Or.inl ⟨h4.1, h⟩))
  · exact Or.inr (Or.inr (Or.inr (Or.inl ⟨h5, h⟩)))
  · exact Or.inr (Or.inr (Or.inr (Or.inr ⟨h6, h⟩)))

theorem msf_sample_count_pcm {E : Engine} {sf : STREAMFILE}
    (hc : msf_codec sf = 0 ∨ msf_codec sf = 1) (bytes : Nat) :
    msf_sample_count E sf bytes = pcm_bytes_to_samples bytes (msf_channel_count sf) 16 := by
  unfold msf_sample_count
  simp only
  rw [if_pos hc]

theorem msf_sample_count_psx {E : Engine} {sf : STREAMFILE} (hc : msf_codec sf = 3)
    (bytes : Nat) :
    msf_sample_count E sf bytes = E.ps_bytes_to_samples bytes (msf_channel_count sf) := by
  unfold msf_sample_count
  simp only
  rw [if_neg (by omega), if_pos hc]

theorem msf_sample_count_atrac3 {E : Engine} {sf : STREAMFILE}
    (hc : msf_codec sf = 4 ∨ msf_codec sf = 5 ∨ msf_codec sf = 6) (bytes : Nat) :
    msf_sample_count E sf bytes
      = E.atrac3_bytes_to_samples bytes
          (msf_block_align (msf_codec sf) (msf_channel_count sf)) := by
  unfold msf_sample_count
  simp only
  rw [if_neg (by omega), if_neg (by omega), if_pos hc]

theorem msf_sample_count_mp3_ffmpeg {E : Engine} {sf : STREAMFILE}
    (hc : msf_codec sf = 7 ∧ E.VGM_USE_FFMPEG = true ∧ E.VGM_USE_MPEG = false)
    {sampleRate bitrate : Int}
    (hi : E.init_ffmpeg_offset sf 0x40 sf.get_streamfile_size = some (sampleRate, bitrate))
    (bytes : Nat) :
    msf_sample_count E sf bytes = msf_mp3_samples bytes sampleRate bitrate := by
  unfold msf_sample_count
  simp only
  rw [if_neg (by omega), if_neg (by omega), if_neg (by omega), if_pos hc, hi]

theorem msf_sample_count_mpeg {E : Engine} {sf : STREAMFILE}
    (hc : msf_codec sf = 7 ∧ E.VGM_USE_MPEG = true) {tag mpeg_data : Int}
    (hi : E.init_mpeg sf 0x40 (msf_channel_count sf) = some (tag, mpeg_data)) (bytes : Nat) :
    msf_sample_count E sf bytes = E.mpeg_bytes_to_samples bytes mpeg_data := by
  unfold msf_sample_count
  simp only
  have hn : ¬ (msf_codec sf = 7 ∧ E.VGM_USE_FFMPEG = true ∧ E.VGM_USE_MPEG = false) := by
    intro hx
    rw [hc.2] at hx
    exact absurd hx.2.2 (by simp)
  rw [if_neg (by omega), if_neg (by omega), if_neg (by omega), if_neg hn, if_pos hc, hi]

/-- The three sample counts of a descriptor returned by `init_vgmstream_msf` are the counts
converted from the data size, the raw loop start and the raw loop end, less the pre-roll for
the data size and the loop end, each reduced to its 32-bit field. -/
theorem init_vgmstream_msf_counts {E : Engine} {sf : STREAMFILE} {r : VGMSTREAM}
    (h : init_vgmstream_msf E sf = some r) :
    r.num_samples = toI32 (msf_sample_count E sf (msf_data_size sf) - msf_pre_roll sf) ∧
      (r.loop_flag ≠ 0 →
        r.loop_start_sample = toI32 (msf_sample_count E sf (msf_loop_start sf)) ∧
          r.loop_end_sample
            = toI32 (msf_sample_count E sf (msf_loop_end sf) - msf_pre_roll sf)) := by
  obtain ⟨v, w, hv, hw, -, -, -, hn, hls, hle, -⟩ := init_vgmstream_msf_some h
  have ha := msf_allocated_some hv
  have hflag : r.loop_flag ≠ 0 → msf_loop_flag sf ≠ 0 := by
    intro hlf
    rw [(init_vgmstream_msf_flags h).2] at hlf
    exact hlf
  rw [hn, hls, hle]
  rcases msf_codec_switch_branch hw with hk | hk | hk | hk | hk
  · have hs := msf_case_pcm_some hk.2
    have hp : msf_pre_roll sf = 0 := by
      unfold msf_pre_roll
      rw [if_neg (by omega)]
    simp only [msf_sample_count_pcm hk.1, hp, sub_zero]
    exact ⟨hs.2.2.2.1, fun hlf => hs.2.2.2.2 (hflag hlf)⟩
  · have hs := msf_case_psx_some hk.2
    have hp : msf_pre_roll sf = 0 := by
      unfold msf_pre_roll
      rw [if_neg (by omega)]
    simp only [msf_sample_count_psx hk.1, hp, sub_zero]
    exact ⟨hs.2.2.2.1, fun hlf => hs.2.2.2.2 (hflag hlf)⟩
  · have hs := msf_case_atrac3_some hk.2
    rw [ha.1] at hs
    have hp : msf_pre_roll sf = 1162 := by
      unfold msf_pre_roll
      rw [if_pos hk.1]
    simp only [msf_sample_count_atrac3 hk.1, hp]
    exact ⟨hs.2.2.2.2.1, fun hlf => hs.2.2.2.2.2 (hflag hlf)⟩
  · obtain ⟨-, -, -, sr, br, hi, hnum, hloop⟩ := msf_case_mp3_ffmpeg_some hk.2
    have hp : msf_pre_roll sf = 0 := by
      unfold msf_pre_roll
      rw [if_neg (by omega)]
    simp only [msf_sample_count_mp3_ffmpeg hk.1 hi, hp, sub_zero]
    exact ⟨hnum, fun hlf => hloop (hflag hlf)⟩
  · obtain ⟨-, -, -, tag, md, hi, hnum, hloop⟩ := msf_case_mpeg_some hk.2
    rw [ha.1] at hi
    have hp : msf_pre_roll sf = 0 := by
      unfold msf_pre_roll
      rw [if_neg (by omega)]
    simp only [msf_sample_count_mpeg hk.1 hi, hp, sub_zero]
    exact ⟨hnum, fun hlf => hloop (hflag hlf)⟩

/-- For an engine with monotone conversions, the count converted from a 32-bit byte count
does not decrease with the byte count. -/
theorem msf_sample_count_mono {E : Engine} (hE : E.Monotone) (sf : STREAMFILE) {a b : Nat}
    (hab : a ≤ b) (hb : b < 4294967296) :
    msf_sample_count E sf a ≤ msf_sample_count E sf b := by
  unfold msf_sample_count
  simp only
  split_ifs with h1 h2 h3 h4 h5
  · exact pcm_bytes_to_samples_mono _ _ hab
  · exact hE.ps _ _ _ hab
  · exact hE.atrac3 _ _ _ hab
  · cases hi : E.init_ffmpeg_offset sf 0x40 sf.get_streamfile_size with
    | none => exact le_refl _
    | some p =>
      obtain ⟨sr, br⟩ := p
      have hpos := hE.ffmpeg _ _ _ _ _ hi
      simp only
      rw [msf_mp3_samples_eq (by omega) hpos.1 hpos.2.1,
        msf_mp3_samples_eq hb hpos.1 hpos.2.1]
      exact mp3_ffmpeg_samples_mono hab hpos.1 (le_of_lt hpos.2.2)
  · cases hi : E.init_mpeg sf 0x40 (msf_channel_count sf) with
    | none => exact le_refl _
    | some p =>
      obtain ⟨tag, md⟩ := p
      exact hE.mpeg _ _ _ hab
  · exact le_refl _

/-- For an engine with non-negative conversions, the count converted from a 32-bit byte count
is not negative. -/
theorem msf_sample_count_nonneg {E : Engine} (hN : E.Nonneg) (sf : STREAMFILE) {b : Nat}
    (hb : b < 4294967296) : 0 ≤ msf_sample_count E sf b := by
  unfold msf_sample_count
  simp only
  split_ifs with h1 h2 h3 h4 h5
  · exact (pcm_bytes_to_samples_fits b _ hb).1
  · exact hN.ps _ _
  · exact hN.atrac3 _ _
  · cases hi : E.init_ffmpeg_offset sf 0x40 sf.get_streamfile_size with
    | none => exact le_refl _
    | some p =>
      obtain ⟨sr, br⟩ := p
      have hpos := hN.ffmpeg _ _ _ _ _ hi
      simp only
      rw [msf_mp3_samples_eq hb hpos.1 hpos.2.1]
      refine Int.tdiv_nonneg ?_ (le_of_lt hpos.2.2)
      have h0 : (0 : Int) ≤ (b : Int) := Int.ofNat_nonneg b
      have := hpos.1
      positivity
  · cases hi : E.init_mpeg sf 0x40 (msf_channel_count sf) with
    | none => exact le_refl _
    | some p =>
      obtain ⟨tag, md⟩ := p
      exact hN.mpeg _ _
  · exact le_refl _

theorem msf_pre_roll_cases (sf : STREAMFILE) : msf_pre_roll sf = 0 ∨ msf_pre_roll sf = 1162 := by
  unfold msf_pre_roll
  split_ifs
  · exact Or.inr rfl
  · exact Or.inl rfl

/-- With looping enabled, `init_vgmstream_msf` does not put the loop end after the last
sample when the count converted from the data size fits the 32-bit signed field, for an
engine with monotone and non-negative conversions. -/
theorem msf_loop_end_le_num_samples_of_fit {E : Engine} (hE : E.Monotone) (hN : E.Nonneg)
    {sf : STREAMFILE} {r : VGMSTREAM} (h : init_vgmstream_msf E sf = some r)
    (hlf : r.loop_flag ≠ 0)
    (hfit : msf_sample_count E sf (msf_data_size sf) < 2147483648) :
    r.loop_end_sample ≤ r.num_samples := by
  obtain ⟨hn, hloop⟩ := init_vgmstream_msf_counts h
  have hf : msf_loop_flag sf ≠ 0 := by
    rw [(init_vgmstream_msf_flags h).2] at hlf
    exact hlf
  have hb := msf_loop_end_le_data_size sf hf
  have hd := msf_data_size_lt sf
  have hm := msf_sample_count_mono hE sf hb hd
  have h0 := msf_sample_count_nonneg hN sf (lt_of_le_of_lt hb hd)
  have hp := msf_pre_roll_cases sf
  rw [hn, (hloop hlf).2, toI32_of_range (by omega) (by omega),
    toI32_of_range (by omega) (by omega)]
  omega

/-- The descriptor of `init_vgmstream_ngc_pdt` has its loop end on the last sample and
reports the counter of the scan. -/
theorem pdt_build_loop_end {E : Engine} {sf : STREAMFILE} {c ho : Int} {t : Nat}
    {r : VGMSTREAM} (h : pdt_build E sf c ho t = some r) :
    r.loop_end_sample = r.num_samples ∧ r.num_streams = (t : Int) := by
  unfold pdt_build at h
  simp only at h
  split at h
  · exact absurd h (by simp)
  · split at h
    · exact absurd h (by simp)
    · split at h
      · simp only [Option.some.injEq] at h
        subst h
        exact ⟨rfl, rfl⟩
      · simp only [Option.some.injEq] at h
        subst h
        exact ⟨rfl, rfl⟩

/-- A successful `init_vgmstream_ngc_pdt` passed the bound on the entry count and the scan, and
built its descriptor from the header offset and the counter that the scan left. -/
theorem init_vgmstream_ngc_pdt_some {E : Engine} {sf : STREAMFILE} {r : VGMSTREAM}
    (h : init_vgmstream_ngc_pdt E sf = some r) :
    pdt_entries sf ≤ 0x2000 ∧
      ∃ s, pdt_scan sf (pdt_entries_offset sf) (pdt_target_subsong sf.stream_index)
          (pdt_entries sf) = some s ∧
        pdt_build E sf (pdt_coefs_offset sf) s.header_offset s.total_subsongs = some r := by
  unfold init_vgmstream_ngc_pdt at h
  simp only at h
  split at h
  · exact absurd h (by simp)
  · split at h
    · exact absurd h (by simp)
    · split at h
      · exact absurd h (by simp)
      · rename_i hle
        split at h
        · exact absurd h (by simp)
        · rename_i s hs
          exact ⟨by omega, s, hs, h⟩

/-- With looping enabled, the sample counts of lines 178-194 put the loop end on the last
sample. -/
theorem pdt_split_sized_loop_end {sf : STREAMFILE} {v w : VGMSTREAM}
    (h : pdt_split_sized sf v = some w) :
    w.loop_flag = v.loop_flag ∧
      (pdt_split_loop_flag sf ≠ 0 → w.loop_end_sample = w.num_samples) := by
  unfold pdt_split_sized at h
  simp only at h
  split_ifs at h <;> simp only [Option.some.injEq] at h <;> subst h <;> simp_all

/-- With looping enabled, `init_vgmstream_ngc_pdt_split` puts the loop end on the last
sample. -/
theorem pdt_split_loop_end {E : Engine} {sf : STREAMFILE} {r : VGMSTREAM}
    (h : init_vgmstream_ngc_pdt_split E sf = some r) (hlf : r.loop_flag ≠ 0) :
    r.loop_end_sample = r.num_samples := by
  unfold init_vgmstream_ngc_pdt_split at h
  simp only at h
  split at h
  · exact absurd h (by simp)
  · split at h
    · exact absurd h (by simp)
    · split at h
      · exact absurd h (by simp)
      · rename_i v hv
        have hv0 := allocate_vgmstream_some hv
        subst hv0
        split at h
        · exact absurd h (by simp)
        · rename_i w hw
          have key := pdt_split_sized_loop_end hw
          split at h
          · exact absurd h (by simp)
          · simp only [Option.some.injEq] at h
            subst h
            unfold pdt_split_second_channel at hlf ⊢
            simp only at hlf ⊢
            split_ifs at hlf ⊢
            · exact key.2 (by rw [key.1] at hlf; exact hlf)
            · exact key.2 (by rw [key.1] at hlf; exact hlf)

/-- The sample engine has monotone conversions. -/
theorem sampleEngine_monotone : sampleEngine.Monotone where
  ps := by
    intro c a b hab
    exact Int.ofNat_le.mpr
      (Nat.mul_le_mul_right _ (Nat.div_le_div_right (Nat.div_le_div_right hab)))
  atrac3 := by
    intro c a b hab
    exact Int.ofNat_le.mpr (Nat.mul_le_mul_left _ (Nat.div_le_div_right hab))
  mpeg := by
    intro c a b hab
    exact Int.ofNat_le.mpr (Nat.mul_le_mul_right _ (Nat.div_le_div_right hab))
  ffmpeg := by
    intro sf o s sr br h
    simp only [sampleEngine, Option.some.injEq, Prod.mk.injEq] at h
    omega

/-- The sample engine returns no negative count. -/
theorem sampleEngine_nonneg : sampleEngine.Nonneg where
  ps := fun _ _ => Int.ofNat_nonneg _
  atrac3 := fun _ _ => Int.ofNat_nonneg _
  mpeg := fun _ _ => Int.ofNat_nonneg _
  ffmpeg := by
    intro sf o s sr br h
    simp only [sampleEngine, Option.some.injEq, Prod.mk.injEq] at h
    omega

/-- C6, the code at a failing input. The PS ADPCM header `msfPsxHuge` (codec 3, 1 channel,
data-size field 0xFFFFFFF0, flag bit 0, loop start 0, loop duration 0x100) is accepted with
looping enabled.  Its data size converts to 268435455 * 28 = 7516192740 samples, which the
32-bit field `num_samples` holds as -1073741852, while the loop end 0x100 converts to 448:
`loop_end_sample` exceeds `num_samples`. -/
theorem msf_psx_loop_end_exceeds_num_samples :
    msf_codec msfPsxHuge = 3 ∧ msf_data_size msfPsxHuge = 0xFFFFFFF0 ∧
      msf_loop_end msfPsxHuge = 0x100 ∧
      sampleEngine.ps_bytes_to_samples (msf_data_size msfPsxHuge) 1 = 7516192740 ∧
      (init_vgmstream_msf sampleEngine msfPsxHuge).map
          (fun r => (r.loop_flag, r.num_samples, r.loop_end_sample))
        = some (1, -1073741852, 448) := by
  decide

/-- C10, the code at a failing input. The ATRAC3 header `msfAtrac3Huge` (codec 4, 1 channel,
data-size field 0xFFFFFFF0) has block alignment 0x60.  Its data size converts to
44739242 * 1024 = 45812983808 samples, 45812982646 once the pre-roll 1162 is subtracted; the
32-bit field `num_samples` holds -1431657610 instead. -/
theorem msf_atrac3_num_samples_wraps :
    msf_codec msfAtrac3Huge = 4 ∧ msf_channel_count msfAtrac3Huge = 1 ∧
      msf_data_size msfAtrac3Huge = 0xFFFFFFF0 ∧
      msf_block_align (msf_codec msfAtrac3Huge) (msf_channel_count msfAtrac3Huge) = 0x60 ∧
      sampleEngine.atrac3_bytes_to_samples (msf_data_size msfAtrac3Huge) 0x60 - 1162
        = 45812982646 ∧
      (init_vgmstream_msf sampleEngine msfAtrac3Huge).map
          (fun r => (r.channels, r.loop_flag, r.num_samples))
        = some (1, 0, -1431657610) := by
  decide

/-! ## The scan of `init_vgmstream_ngc_pdt` -/

theorem pdt_scan_from_append (sf : STREAMFILE) (eo t : Int) (l1 l2 : List Nat) (s : PdtScan) :
    pdt_scan_from sf eo t (l1 ++ l2) s
      = (pdt_scan_from sf eo t l1 s).bind (pdt_scan_from sf eo t l2) := by
  induction l1 generalizing s with
  | nil => rfl
  | cons i rest ih =>
    simp only [List.cons_append, pdt_scan_from]
    cases pdt_scan_step sf eo t s i with
    | none => rfl
    | some s1 => exact ih s1

/-- Scanning one more slot is one more iteration. -/
theorem pdt_scan_succ (sf : STREAMFILE) (eo t : Int) (m : Nat) :
    pdt_scan sf eo t (m + 1)
      = (pdt_scan sf eo t m).bind (fun s => pdt_scan_step sf eo t s m) := by
  unfold pdt_scan
  rw [List.range_succ, pdt_scan_from_append]
  congr 1
  funext s
  simp only [pdt_scan_from]
  cases pdt_scan_step sf eo t s m <;> rfl

theorem pdt_live_succ (sf : STREAMFILE) (eo : Int) (m : Nat) :
    pdt_live sf eo (m + 1)
      = pdt_live sf eo m
        ++ (if pdt_entry_offset sf eo m = 0 then [] else [pdt_entry_offset sf eo m]) := by
  unfold pdt_live
  rw [List.range_succ, List.map_append, List.filter_append]
  congr 1
  by_cases h : pdt_entry_offset sf eo m = 0 <;> simp [h]

theorem pdt_is_unique_iff (s : PdtScan) (d : Nat) :
    pdt_is_unique s d = true ↔ ∀ j, j < s.total_subsongs → s.data_offsets j ≠ d := by
  unfold pdt_is_unique
  simp [List.all_eq_true]

theorem pdt_scan_init_inv (sf : STREAMFILE) (eo t : Int) :
    PdtScanInv sf eo t 0 pdt_scan_init where
  count := by simp [pdt_scan_init, pdt_live_offsets, pdt_live]
  bound := by simp [pdt_scan_init]
  seen := by simp [pdt_scan_init, pdt_live_offsets, pdt_live]
  pending := by simp [pdt_scan_init]
  found := by
    intro h1 h2
    simp only [pdt_scan_init] at h2
    omega

/-- One iteration keeps the invariant, and its store stays inside the buffer. -/
theorem pdt_scan_step_inv {sf : STREAMFILE} {eo t : Int} {m : Nat} {s : PdtScan}
    (h : PdtScanInv sf eo t m s) (hm : m < 0x2000) :
    ∃ s1, pdt_scan_step sf eo t s m = some s1 ∧ PdtScanInv sf eo t (m + 1) s1 := by
  have hlive := pdt_live_succ sf eo m
  by_cases he : pdt_entry_offset sf eo m = 0
  · -- a hole: nothing changes
    refine ⟨s, by simp [pdt_scan_step, he], ?_⟩
    rw [if_pos he, List.append_nil] at hlive
    have hoff : pdt_live_offsets sf eo (m + 1) = pdt_live_offsets sf eo m := by
      unfold pdt_live_offsets
      rw [hlive]
    exact
      { count := by rw [hoff]; exact h.count
        bound := Nat.le_succ_of_le h.bound
        seen := by rw [hoff]; exact h.seen
        pending := h.pending
        found := by rw [hoff, hlive]; exact h.found }
  · rw [if_neg he] at hlive
    have hoff : pdt_live_offsets sf eo (m + 1)
        = pdt_live_offsets sf eo m ++ [pdt_data_offset sf (pdt_entry_offset sf eo m)] := by
      unfold pdt_live_offsets
      rw [hlive, List.map_append]
      rfl
    have hlen : (pdt_live_offsets sf eo m).length = (pdt_live sf eo m).length := by
      unfold pdt_live_offsets
      exact List.length_map _ _
    -- positions found earlier stay valid in the longer lists
    have keep : ∀ p e, (pdt_live sf eo m)[p]? = some e →
        (pdt_live sf eo (m + 1))[p]? = some e ∧
        (pdt_live_offsets sf eo (m + 1)).take p = (pdt_live_offsets sf eo m).take p ∧
        (pdt_live_offsets sf eo (m + 1)).take (p + 1)
          = (pdt_live_offsets sf eo m).take (p + 1) := by
      intro p e hp
      have hplt : p < (pdt_live sf eo m).length := by
        by_contra hge
        rw [List.getElem?_eq_none (by omega)] at hp
        exact absurd hp (by simp)
      refine ⟨?_, ?_, ?_⟩
      · rw [hlive, List.getElem?_append_left hplt]
        exact hp
      · rw [hoff, List.take_append_of_le_length (by omega)]
      · rw [hoff, List.take_append_of_le_length (by omega)]
    by_cases hu : pdt_is_unique s (pdt_data_offset sf (pdt_entry_offset sf eo m)) = true
    · -- a new data offset
      have hnew : pdt_data_offset sf (pdt_entry_offset sf eo m) ∉ pdt_live_offsets sf eo m := by
        intro hmem
        obtain ⟨j, hj, hjd⟩ := (h.seen _).1 hmem
        exact (pdt_is_unique_iff _ _).1 hu j hj hjd
      have hroom : ¬ (0x2000 ≤ s.total_subsongs) := by
        have := h.bound
        omega
      have hcard : (pdt_live_offsets sf eo (m + 1)).toFinset.card = s.total_subsongs + 1 := by
        rw [hoff, List.toFinset_append, h.count]
        simp only [List.toFinset_cons, List.toFinset_nil, insert_emptyc_eq]
        rw [Finset.card_union_of_disjoint]
        · simp
        · simp [hnew]
      refine
        ⟨{ data_offsets := fun j =>
              if j = s.total_subsongs then pdt_data_offset sf (pdt_entry_offset sf eo m)
              else s.data_offsets j
           total_subsongs := s.total_subsongs + 1
           header_offset :=
              if s.header_offset = 0 ∧ t = ((s.total_subsongs + 1 : Nat) : Int) then
                (pdt_entry_offset sf eo m : Int)
              else s.header_offset },
          by simp only [pdt_scan_step, if_neg he, hu, if_neg hroom]; rfl, ?_⟩
      exact
        { count := by simp only [hcard]
          bound := by
            have := h.bound
            simp only
            omega
          seen := by
            intro d
            rw [hoff, List.mem_append, List.mem_singleton, h.seen d]
            simp only
            constructor
            · rintro (⟨j, hj, hjd⟩ | hd)
              · exact ⟨j, by omega, by rw [if_neg (by omega)]; exact hjd⟩
              · exact ⟨s.total_subsongs, by omega, by rw [if_pos rfl]; exact hd.symm⟩
            · rintro ⟨j, hj, hjd⟩
              by_cases hjt : j = s.total_subsongs
              · rw [if_pos hjt] at hjd
                exact Or.inr hjd.symm
              · rw [if_neg hjt] at hjd
                exact Or.inl ⟨j, by omega, hjd⟩
          pending := by
            intro hp
            simp only at hp ⊢
            have hne : ¬ (s.header_offset = 0 ∧ t = ((s.total_subsongs + 1 : Nat) : Int)) := by
              intro hc
              push_cast at hp
              omega
            rw [if_neg hne]
            apply h.pending
            push_cast at hp
            omega
          found := by
            intro h1 h2
            simp only at h2 ⊢
            push_cast at h2
            by_cases hlt : t ≤ (s.total_subsongs : Int)
            · obtain ⟨p, e, hp, hho, hfirst, hkth⟩ := h.found h1 hlt
              obtain ⟨k1, k2, k3⟩ := keep p e hp
              have hne : ¬ (s.header_offset = 0 ∧ t = ((s.total_subsongs + 1 : Nat) : Int)) := by
                intro hc
                push_cast at hc
                omega
              rw [if_neg hne]
              exact ⟨p, e, k1, hho, by rw [k2]; exact hfirst, by rw [k3]; exact hkth⟩
            · have hz : s.header_offset = 0 := h.pending (Or.inr (by omega))
              have hteq : t = ((s.total_subsongs + 1 : Nat) : Int) := by
                push_cast
                omega
              rw [if_pos ⟨hz, hteq⟩]
              refine ⟨(pdt_live sf eo m).length, pdt_entry_offset sf eo m, ?_, rfl, ?_, ?_⟩
              · rw [hlive]
                simp
              · rw [hoff, ← hlen, List.take_left]
                exact hnew
              · rw [← hlen, List.take_of_length_le (by rw [hoff]; simp), hcard]
                exact hteq.symm }
    · -- a data offset met before
      have hu2 : pdt_is_unique s (pdt_data_offset sf (pdt_entry_offset sf eo m)) = false := by
        simpa using hu
      have hold : pdt_data_offset sf (pdt_entry_offset sf eo m) ∈ pdt_live_offsets sf eo m := by
        by_contra hnm
        apply hu
        rw [pdt_is_unique_iff]
        intro j hj hjd
        exact hnm ((h.seen _).2 ⟨j, hj, hjd⟩)
      have hfin : (pdt_live_offsets sf eo (m + 1)).toFinset
          = (pdt_live_offsets sf eo m).toFinset := by
        rw [hoff, List.toFinset_append]
        simp only [List.toFinset_cons, List.toFinset_nil, insert_emptyc_eq]
        rw [Finset.union_eq_left]
        simp [hold]
      refine ⟨s, by simp [pdt_scan_step, he, hu2], ?_⟩
      exact
        { count := by rw [hfin]; exact h.count
          bound := Nat.le_succ_of_le h.bound
          seen := by
            intro d
            rw [← h.seen d, hoff, List.mem_append, List.mem_singleton]
            constructor
            · rintro (hd | hd)
              · exact hd
              · rw [hd]
                exact hold
            · intro hd
              exact Or.inl hd
          pending := h.pending
          found := by
            intro h1 h2
            obtain ⟨p, e, hp, hho, hfirst, hkth⟩ := h.found h1 h2
            obtain ⟨k1, k2, k3⟩ := keep p e hp
            exact ⟨p, e, k1, hho, by rw [k2]; exact hfirst, by rw [k3]; exact hkth⟩ }

/-- The scan of at most `0x2000` slots completes with every store inside the buffer, and
leaves the invariant. -/
theorem pdt_scan_inv (sf : STREAMFILE) (eo t : Int) (m : Nat) (hm : m ≤ 0x2000) :
    ∃ s, pdt_scan sf eo t m = some s ∧ PdtScanInv sf eo t m s := by
  induction m with
  | zero => exact ⟨pdt_scan_init, rfl, pdt_scan_init_inv sf eo t⟩
  | succ k ih =>
    obtain ⟨s, hs, hinv⟩ := ih (by omega)
    obtain ⟨s1, hs1, hinv1⟩ := pdt_scan_step_inv hinv (by omega)
    refine ⟨s1, ?_, hinv1⟩
    rw [pdt_scan_succ, hs]
    exact hs1

/-- Past the checks of lines 15-43, `init_vgmstream_ngc_pdt` is the descriptor built from what
the scan left. -/
theorem init_vgmstream_ngc_pdt_accepted {E : Engine} {sf : STREAMFILE}
    (hext : E.check_extensions sf "pdt" = true) (hhdr : pdt_header_ok sf = true)
    (hn : pdt_entries sf ≤ 0x2000) {s : PdtScan}
    (hs : pdt_scan sf (pdt_entries_offset sf) (pdt_target_subsong sf.stream_index)
      (pdt_entries sf) = some s) :
    init_vgmstream_ngc_pdt E sf
      = pdt_build E sf (pdt_coefs_offset sf) s.header_offset s.total_subsongs := by
  unfold init_vgmstream_ngc_pdt
  simp only
  rw [if_neg (by simp [hext]), if_neg (by simp [hhdr]), if_neg (by omega), hs]

/-- The descriptor built from the sub-header at `ho` starts its first channel at the 32-bit
word at `ho + 0x10`, the data offset of that sub-header. -/
theorem pdt_build_start_offset {E : Engine} {sf : STREAMFILE} {c ho : Int} {t : Nat}
    {r : VGMSTREAM} (h : pdt_build E sf c ho t = some r) :
    r.start_offset = some (sf.read_32bitBE (ho + 0x10)) ∧
      r.num_samples = E.dsp_nibbles_to_samples (toSize (sf.read_32bitBE (ho + 0x08))) := by
  unfold pdt_build at h
  simp only at h
  split at h
  · exact absurd h (by simp)
  · split at h
    · exact absurd h (by simp)
    · split at h
      · simp only [Option.some.injEq] at h
        subst h
        exact ⟨rfl, rfl⟩
      · simp only [Option.some.injEq] at h
        subst h
        exact ⟨rfl, rfl⟩

/-- The scan of a table of at most 0x2000 slots, in the terms of the embedding: the descriptor
is built with the number of distinct data offsets of the non-zero slots, and for a target
between 1 and that number from the entry pointer that first carries the target-th distinct
data offset. -/
theorem pdt_scan_resolution (E : Engine) (sf : STREAMFILE)
    (hext : E.check_extensions sf "pdt" = true) (hhdr : pdt_header_ok sf = true)
    (hn : pdt_entries sf ≤ 0x2000) :
    (∃ header_offset : Int,
        init_vgmstream_ngc_pdt E sf
          = pdt_build E sf (pdt_coefs_offset sf) header_offset
              (pdt_live_offsets sf (pdt_entries_offset sf) (pdt_entries sf)).toFinset.card) ∧
      (1 ≤ sf.stream_index →
        sf.stream_index
          ≤ ((pdt_live_offsets sf (pdt_entries_offset sf) (pdt_entries sf)).toFinset.card
              : Int) →
        ∃ p e : Nat,
          (pdt_live sf (pdt_entries_offset sf) (pdt_entries sf))[p]? = some e ∧
          pdt_data_offset sf e
            ∉ (pdt_live_offsets sf (pdt_entries_offset sf) (pdt_entries sf)).take p ∧
          ((((pdt_live_offsets sf (pdt_entries_offset sf) (pdt_entries sf)).take
              (p + 1)).toFinset.card : Nat) : Int) = sf.stream_index ∧
          init_vgmstream_ngc_pdt E sf
            = pdt_build E sf (pdt_coefs_offset sf) (e : Int)
                (pdt_live_offsets sf (pdt_entries_offset sf)
                  (pdt_entries sf)).toFinset.card) := by
  obtain ⟨s, hs, hinv⟩ :=
    pdt_scan_inv sf (pdt_entries_offset sf) (pdt_target_subsong sf.stream_index)
      (pdt_entries sf) hn
  have hinit := init_vgmstream_ngc_pdt_accepted hext hhdr hn hs
  have hcount := hinv.count
  refine ⟨⟨s.header_offset, by rw [hinit, hcount]⟩, ?_⟩
  intro h1 h2
  have ht : pdt_target_subsong sf.stream_index = sf.stream_index := by
    unfold pdt_target_subsong
    rw [if_neg (by omega)]
  rw [ht] at hinv
  obtain ⟨p, e, hp, hho, hfirst, hkth⟩ := hinv.found h1 (by rw [hcount]; exact h2)
  exact ⟨p, e, hp, hfirst, hkth, by rw [hinit, hho, hcount]⟩

theorem pdtSlotCount_eq (sf : STREAMFILE) : pdtSlotCount sf = pdt_entries sf := rfl

theorem pdtSlotPointer_eq (sf : STREAMFILE) (i : Nat) :
    pdtSlotPointer sf i = pdt_entry_offset sf (pdt_entries_offset sf) i := by
  unfold pdtSlotPointer pdt_entry_offset pdt_entries_offset toU32
  rw [mul_comm]

theorem pdtSlotDataOffset_eq (sf : STREAMFILE) :
    pdtSlotDataOffset sf = pdt_data_offset sf := by
  funext e
  rfl

theorem pdtLivePointers_eq (sf : STREAMFILE) :
    pdtLivePointers sf = pdt_live sf (pdt_entries_offset sf) (pdt_entries sf) := by
  unfold pdtLivePointers pdt_live
  rw [pdtSlotCount_eq]
  congr 2
  funext i
  exact pdtSlotPointer_eq sf i

theorem pdtLiveDataOffsets_eq (sf : STREAMFILE) :
    pdtLiveDataOffsets sf = pdt_live_offsets sf (pdt_entries_offset sf) (pdt_entries sf) := by
  unfold pdtLiveDataOffsets pdt_live_offsets
  rw [pdtLivePointers_eq, pdtSlotDataOffset_eq]

/-- C1. In `init_vgmstream_ngc_pdt`, for a container that passes the checks of lines 15-27
and declares at most 0x2000 table slots, the descriptor is built with a subsong count equal
to the number of distinct data offsets (the 32-bit word at entry+0x10) among the slots whose
entry pointer is not zero, whatever index is requested, and every descriptor returned reports
that count in `num_streams`.  When the requested index `k` lies between 1 and that count,
the descriptor is built from the entry pointer `e` found at a position `p` of the non-zero
slots, in table order, whose data offset occurs at no earlier position and is the `k`-th
distinct one; a descriptor returned then starts at the data offset of `e` and takes its
sample count from the sub-header at `e`.  The table, the pointers and the data offsets are
read here from the source directly, not through the scan. -/
theorem pdt_subsong_count_and_selection (E : Engine) (sf : STREAMFILE)
    (hext : E.check_extensions sf "pdt" = true) (hhdr : pdt_header_ok sf = true)
    (hn : pdtSlotCount sf ≤ 0x2000) :
    (∃ header_offset : Int,
        init_vgmstream_ngc_pdt E sf
          = pdt_build E sf (sf.read_32bitBE 0x14) header_offset
              (pdtLiveDataOffsets sf).toFinset.card) ∧
      (∀ r, init_vgmstream_ngc_pdt E sf = some r →
        r.num_streams = ((pdtLiveDataOffsets sf).toFinset.card : Int)) ∧
      (1 ≤ sf.stream_index →
        sf.stream_index ≤ ((pdtLiveDataOffsets sf).toFinset.card : Int) →
        ∃ p e : Nat,
          (pdtLivePointers sf)[p]? = some e ∧
          pdtSlotDataOffset sf e ∉ (pdtLiveDataOffsets sf).take p ∧
          ((((pdtLiveDataOffsets sf).take (p + 1)).toFinset.card : Nat) : Int)
            = sf.stream_index ∧
          init_vgmstream_ngc_pdt E sf
            = pdt_build E sf (sf.read_32bitBE 0x14) (e : Int)
                (pdtLiveDataOffsets sf).toFinset.card ∧
          (∀ r, init_vgmstream_ngc_pdt E sf = some r →
            r.start_offset = some (sf.read_32bitBE ((e : Int) + 0x10)) ∧
              r.num_samples
                = E.dsp_nibbles_to_samples (toSize (sf.read_32bitBE ((e : Int) + 0x08))))) := by
  rw [pdtSlotCount_eq] at hn
  rw [pdtLiveDataOffsets_eq, pdtLivePointers_eq, pdtSlotDataOffset_eq]
  obtain ⟨hbuilt, hsel⟩ := pdt_scan_resolution E sf hext hhdr hn
  refine ⟨hbuilt, ?_, ?_⟩
  · intro r hr
    obtain ⟨ho, hb⟩ := hbuilt
    rw [hb] at hr
    exact (pdt_build_loop_end hr).2
  · intro h1 h2
    obtain ⟨p, e, hp, hfirst, hkth, hb⟩ := hsel h1 h2
    refine ⟨p, e, hp, hfirst, hkth, hb, ?_⟩
    intro r hr
    rw [hb] at hr
    exact pdt_build_start_offset hr

theorem pdt_subsong_count_and_selection_witness :
    (sampleEngine.check_extensions (pdtScenarioD 2) "pdt" = true ∧
        pdt_header_ok (pdtScenarioD 2) = true ∧ pdtSlotCount (pdtScenarioD 2) ≤ 0x2000 ∧
        pdtLivePointers (pdtScenarioD 2) = [0x40, 0x60, 0x80] ∧
        pdtLiveDataOffsets (pdtScenarioD 2) = [0x100, 0x100, 0x200] ∧
        1 ≤ (pdtScenarioD 2).stream_index ∧
        (pdtScenarioD 2).stream_index
          ≤ ((pdtLiveDataOffsets (pdtScenarioD 2)).toFinset.card : Int)) ∧
      init_vgmstream_ngc_pdt sampleEngine (pdtScenarioD 2) = some pdtScenarioD_result ∧
      (∀ r, init_vgmstream_ngc_pdt sampleEngine (pdtScenarioD 2) = some r →
        r.num_streams = ((pdtLiveDataOffsets (pdtScenarioD 2)).toFinset.card : Int)) ∧
      (∃ p e : Nat,
        (pdtLivePointers (pdtScenarioD 2))[p]? = some e ∧
        pdtSlotDataOffset (pdtScenarioD 2) e ∉ (pdtLiveDataOffsets (pdtScenarioD 2)).take p ∧
        ((((pdtLiveDataOffsets (pdtScenarioD 2)).take (p + 1)).toFinset.card : Nat) : Int)
          = (pdtScenarioD 2).stream_index ∧
        init_vgmstream_ngc_pdt sampleEngine (pdtScenarioD 2)
          = pdt_build sampleEngine (pdtScenarioD 2) ((pdtScenarioD 2).read_32bitBE 0x14)
              (e : Int) (pdtLiveDataOffsets (pdtScenarioD 2)).toFinset.card ∧
        (∀ r, init_vgmstream_ngc_pdt sampleEngine (pdtScenarioD 2) = some r →
          r.start_offset = some ((pdtScenarioD 2).read_32bitBE ((e : Int) + 0x10)) ∧
            r.num_samples
              = sampleEngine.dsp_nibbles_to_samples
                  (toSize ((pdtScenarioD 2).read_32bitBE ((e : Int) + 0x08))))) :=
  ⟨⟨by decide, by decide, by decide, by decide, by decide, by decide, by decide⟩, by decide,
    (pdt_subsong_count_and_selection sampleEngine (pdtScenarioD 2) (by decide) (by decide)
      (by decide)).2.1,
    (pdt_subsong_count_and_selection sampleEngine (pdtScenarioD 2) (by decide) (by decide)
      (by decide)).2.2 (by decide) (by decide)⟩

/-- C2, the code at a failing input. In the container `pdtScenarioCBytes` slots 0 and 2 share
a data offset and slot 1 is zero.  Requested with index 2, the scan ends with one unique
stream and `header_offset` still 0, and `init_vgmstream_ngc_pdt` returns a descriptor all the
same: it is parsed from offset 0 of the file, where the fixed header lies (sample rate 2,
28000 samples, data at 0x20). -/
theorem pdt_unreached_subsong_not_rejected :
    (pdt_scan (pdtScenarioC 2) (pdt_entries_offset (pdtScenarioC 2))
          (pdt_target_subsong (pdtScenarioC 2).stream_index)
          (pdt_entries (pdtScenarioC 2))).map
        (fun s => (s.total_subsongs, s.header_offset)) = some (1, 0) ∧
      (init_vgmstream_ngc_pdt sampleEngine (pdtScenarioC 2)).map
        (fun r => (r.num_streams, r.channels, r.sample_rate, r.num_samples, r.start_offset))
        = some (1, 1, 2, 28000, some 0x20) := by
  decide

/-- C7. `init_vgmstream_ngc_pdt` rejects every container whose entry count (0x02) exceeds
0x2000, whatever the table holds; and for an accepted count, the scan reaches every slot `i`
with a counter `total_subsongs` of at most `i`, hence below 0x2000, so that the store of the
iteration into `data_offsets[total_subsongs]` lies inside the buffer (the iteration yields a
state; a store outside the buffer would yield none). -/
theorem pdt_entry_count_bounded (E : Engine) (sf : STREAMFILE) :
    (0x2000 < pdt_entries sf → init_vgmstream_ngc_pdt E sf = none) ∧
      (pdt_entries sf ≤ 0x2000 →
        ∀ (target_subsong : Int) (i : Nat), i < pdt_entries sf →
          ∃ s s1, pdt_scan sf (pdt_entries_offset sf) target_subsong i = some s ∧
            s.total_subsongs ≤ i ∧ s.total_subsongs < 0x2000 ∧
            pdt_scan_step sf (pdt_entries_offset sf) target_subsong s i = some s1) := by
  constructor
  · intro hgt
    unfold init_vgmstream_ngc_pdt
    simp only
    split_ifs <;> rfl
  · intro hle target_subsong i hi
    obtain ⟨s, hs, hinv⟩ := pdt_scan_inv sf (pdt_entries_offset sf) target_subsong i (by omega)
    obtain ⟨s1, hs1, -⟩ := pdt_scan_step_inv hinv (by omega)
    have hb := hinv.bound
    exact ⟨s, s1, hs, hb, by omega, hs1⟩

theorem pdt_entry_count_bounded_witness :
    (0x2000 < pdt_entries pdtTooManyEntries ∧
        init_vgmstream_ngc_pdt sampleEngine pdtTooManyEntries = none) ∧
      pdt_entries (pdtScenarioC 1) ≤ 0x2000 ∧ 2 < pdt_entries (pdtScenarioC 1) ∧
      ∃ s s1, pdt_scan (pdtScenarioC 1) (pdt_entries_offset (pdtScenarioC 1)) 1 2 = some s ∧
        s.total_subsongs ≤ 2 ∧ s.total_subsongs < 0x2000 ∧
        pdt_scan_step (pdtScenarioC 1) (pdt_entries_offset (pdtScenarioC 1)) 1 s 2 = some s1 :=
  ⟨⟨by decide, (pdt_entry_count_bounded sampleEngine pdtTooManyEntries).1 (by decide)⟩,
    by decide, by decide,
    (pdt_entry_count_bounded sampleEngine (pdtScenarioC 1)).2 (by decide) 1 2 (by decide)⟩

/-! ## Codec ids, the data size and the independence of unused header bytes -/

/-- The `switch (codec)` yields a descriptor only for a codec id whose case is compiled in. -/
theorem msf_codec_switch_enabled {E : Engine} {sf : STREAMFILE} {v w : VGMSTREAM}
    (h : msf_codec_switch E sf v = some w) :
    msf_codec sf = 0 ∨ msf_codec sf = 1 ∨ msf_codec sf = 3 ∨
      ((msf_codec sf = 4 ∨ msf_codec sf = 5 ∨ msf_codec sf = 6) ∧ E.VGM_USE_FFMPEG = true) ∨
      (msf_codec sf = 7 ∧ (E.VGM_USE_FFMPEG = true ∨ E.VGM_USE_MPEG = true)) := by
  unfold msf_codec_switch at h
  simp only at h
  split_ifs at h with h1 h2 h3 h4 h5 h6
  · rcases h1 with h1 | h1
    · exact Or.inl h1
    · exact Or.inr (Or.inl h1)
  · exact Or.inr (Or.inr (Or.inl h3))
  · exact Or.inr (Or.inr (Or.inr (Or.inl h4)))
  · exact Or.inr (Or.inr (Or.inr (Or.inr ⟨h5.1, Or.inl h5.2.1⟩)))
  · exact Or.inr (Or.inr (Or.inr (Or.inr ⟨h6.1, Or.inr h6.2⟩)))

/-- C11. `init_vgmstream_msf` returns no descriptor for codec id 0x02 and for every codec id
of 0x08 or more, whatever the rest of the header and the engine; none for the ids 0x04-0x06
when `VGM_USE_FFMPEG` is not defined, and none for 0x07 when neither `VGM_USE_FFMPEG` nor
`VGM_USE_MPEG` is; a descriptor is returned only for a codec id whose case is compiled in. -/
theorem msf_unsupported_codec_fails (E : Engine) (sf : STREAMFILE) :
    (msf_codec sf = 2 → init_vgmstream_msf E sf = none) ∧
      (8 ≤ msf_codec sf → init_vgmstream_msf E sf = none) ∧
      ((msf_codec sf = 4 ∨ msf_codec sf = 5 ∨ msf_codec sf = 6) → E.VGM_USE_FFMPEG = false →
        init_vgmstream_msf E sf = none) ∧
      (msf_codec sf = 7 → E.VGM_USE_FFMPEG = false → E.VGM_USE_MPEG = false →
        init_vgmstream_msf E sf = none) ∧
      (∀ r, init_vgmstream_msf E sf = some r →
        msf_codec sf = 0 ∨ msf_codec sf = 1 ∨ msf_codec sf = 3 ∨
          ((msf_codec sf = 4 ∨ msf_codec sf = 5 ∨ msf_codec sf = 6) ∧
            E.VGM_USE_FFMPEG = true) ∨
          (msf_codec sf = 7 ∧ (E.VGM_USE_FFMPEG = true ∨ E.VGM_USE_MPEG = true))) := by
  have key : ∀ r, init_vgmstream_msf E sf = some r →
      msf_codec sf = 0 ∨ msf_codec sf = 1 ∨ msf_codec sf = 3 ∨
        ((msf_codec sf = 4 ∨ msf_codec sf = 5 ∨ msf_codec sf = 6) ∧
          E.VGM_USE_FFMPEG = true) ∨
        (msf_codec sf = 7 ∧ (E.VGM_USE_FFMPEG = true ∨ E.VGM_USE_MPEG = true)) := by
    intro r hr
    obtain ⟨v, w, -, hw, -⟩ := init_vgmstream_msf_some hr
    exact msf_codec_switch_enabled hw
  refine ⟨?_, ?_, ?_, ?_, key⟩
  · intro hc
    cases hr : init_vgmstream_msf E sf with
    | none => rfl
    | some r =>
      exfalso
      rcases key r hr with h | h | h | h | h <;> omega
  · intro hc
    cases hr : init_vgmstream_msf E sf with
    | none => rfl
    | some r =>
      exfalso
      rcases key r hr with h | h | h | h | h <;> omega
  · intro hc hf
    cases hr : init_vgmstream_msf E sf with
    | none => rfl
    | some r =>
      exfalso
      rcases key r hr with h | h | h | h | h
      · omega
      · omega
      · omega
      · rw [hf] at h
        exact absurd h.2 (by simp)
      · omega
  · intro hc hf hm
    cases hr : init_vgmstream_msf E sf with
    | none => rfl
    | some r =>
      exfalso
      rcases key r hr with h | h | h | h | h
      · omega
      · omega
      · omega
      · omega
      · rw [hf, hm] at h
        exact absurd h.2 (by simp)

theorem msf_unsupported_codec_fails_witness :
    (msf_codec msfCodec2 = 2 ∧ init_vgmstream_msf sampleEngine msfCodec2 = none) ∧
      ((msf_codec msfCodec4 = 4 ∨ msf_codec msfCodec4 = 5 ∨ msf_codec msfCodec4 = 6) ∧
        bareEngine.VGM_USE_FFMPEG = false ∧ init_vgmstream_msf bareEngine msfCodec4 = none) ∧
      init_vgmstream_msf sampleEngine msfScenarioA = some msfScenarioA_result ∧
      (msf_codec msfScenarioA = 0 ∨ msf_codec msfScenarioA = 1 ∨ msf_codec msfScenarioA = 3 ∨
        ((msf_codec msfScenarioA = 4 ∨ msf_codec msfScenarioA = 5 ∨
            msf_codec msfScenarioA = 6) ∧ sampleEngine.VGM_USE_FFMPEG = true) ∨
        (msf_codec msfScenarioA = 7 ∧
          (sampleEngine.VGM_USE_FFMPEG = true ∨ sampleEngine.VGM_USE_MPEG = true))) :=
  ⟨⟨by decide, (msf_unsupported_codec_fails sampleEngine msfCodec2).1 (by decide)⟩,
    ⟨by decide, by decide,
      (msf_unsupported_codec_fails bareEngine msfCodec4).2.2.1 (by decide) (by decide)⟩,
    by decide,
    (msf_unsupported_codec_fails sampleEngine msfScenarioA).2.2.2.2 msfScenarioA_result
      (by decide)⟩

/-- For an all-ones data-size field and a source of 0x40 up to 0x40 + 0xFFFFFFFF bytes, the
data size of lines 30-31 is the source length minus the header. -/
theorem msf_data_size_of_length (sf : STREAMFILE)
    (hf : toU32 (sf.read_32bitBE 0x0C) = 0xFFFFFFFF) (h1 : 0x40 ≤ sf.get_streamfile_size)
    (h2 : sf.get_streamfile_size - 0x40 < 4294967296) :
    (msf_data_size sf : Int) = sf.get_streamfile_size - 0x40 := by
  have hd : msf_data_size sf = toU32 (sf.get_streamfile_size - 0x40) := by
    unfold msf_data_size
    simp only
    rw [if_pos hf]
  rw [hd]
  unfold toU32
  omega

/-- For a data-size field that is not all-ones, the data size is the field. -/
theorem msf_data_size_of_field (sf : STREAMFILE)
    (hf : toU32 (sf.read_32bitBE 0x0C) ≠ 0xFFFFFFFF) :
    msf_data_size sf = toU32 (sf.read_32bitBE 0x0C) := by
  unfold msf_data_size
  simp only
  rw [if_neg hf]

/-- C12, the code at a failing input. The source `msfShortSource` is 0x20 bytes long, shorter
than the 0x40-byte header, and its data-size field is all-ones: the source length minus the
header is -0x20.  Line 31 subtracts in unsigned arithmetic and stores the difference in a
`uint32_t`: the data size is 0xFFFFFFE0, and the PCM case converts it to 1073741816 samples
for a source that holds no data byte.  Likewise for the header of `msfLongSource`, a source
of 0x100000068 bytes: the source length minus the header is 0x100000028 and the data size
used is 0x28, converted to 10 samples. -/
theorem msf_data_size_from_short_source :
    (msfShortSource.get_streamfile_size = 0x20 ∧
        toU32 (msfShortSource.read_32bitBE 0x0C) = 0xFFFFFFFF ∧
        msf_data_size msfShortSource = 0xFFFFFFE0 ∧
        (init_vgmstream_msf sampleEngine msfShortSource).map
            (fun r => (r.channels, r.num_samples)) = some (2, 1073741816)) ∧
      (msfLongSource.get_streamfile_size = 0x100000068 ∧
        toU32 (msfLongSource.read_32bitBE 0x0C) = 0xFFFFFFFF ∧
        msf_data_size msfLongSource = 0x28 ∧
        (init_vgmstream_msf sampleEngine msfLongSource).map
            (fun r => (r.channels, r.num_samples)) = some (2, 10)) := by
  decide

theorem toU32_lt (x : Int) : toU32 x < 4294967296 := by
  unfold toU32
  omega

/-- The mask of line 22 keeps the three upper bytes of a 32-bit word. -/
theorem and_ffffff00 (x : Nat) (hx : x < 4294967296) : x &&& 0xffffff00 = x / 256 * 256 := by
  apply Nat.eq_of_testBit_eq
  intro i
  have hm : (0xffffff00 : Nat) = 2 ^ 8 * (2 ^ 24 - 1) := by norm_num
  have h256 : x / 256 * 256 = 2 ^ 8 * (x >>> 8) := by
    rw [Nat.shiftRight_eq_div_pow, Nat.mul_comm]
    norm_num
  rw [Nat.testBit_and, hm, h256, Nat.testBit_mul_pow_two, Nat.testBit_mul_pow_two,
    Nat.testBit_two_pow_sub_one, Nat.testBit_shiftRight]
  by_cases h8 : 8 ≤ i
  · by_cases h32 : i < 32
    · have h24 : i - 8 < 24 := by omega
      have e : 8 + (i - 8) = i := by omega
      simp [h8, h24, e]
    · have hf : x.testBit i = false := by
        apply Nat.testBit_eq_false_of_lt
        calc x < 2 ^ 32 := by simpa using hx
          _ ≤ 2 ^ i := Nat.pow_le_pow_right (by norm_num) (by omega)
      have e : 8 + (i - 8) = i := by omega
      simp [hf, e]
  · simp [h8]

/-- The magic check of line 22 compares the first three bytes with "MSF". -/
theorem msf_magic_check_iff (sf : STREAMFILE) :
    (toU32 (sf.read_32bitBE 0x00)) &&& 0xffffff00 ≠ 0x4D534600 ↔
      toU32 (sf.read_32bitBE 0x00) / 256 ≠ 0x4D5346 := by
  rw [and_ffffff00 _ (toU32_lt _)]
  omega

/-- `init_vgmstream_msf` is determined by the magic, the values drawn from the header, the
source length and the answers of the engine. -/
theorem init_vgmstream_msf_congr {E : Engine} {sf1 sf2 : STREAMFILE} (hE : E.SameOn sf1 sf2)
    (hmagic : (toU32 (sf1.read_32bitBE 0x00)) &&& 0xffffff00
      = (toU32 (sf2.read_32bitBE 0x00)) &&& 0xffffff00)
    (hsize : sf1.get_streamfile_size = sf2.get_streamfile_size)
    (hcodec : msf_codec sf1 = msf_codec sf2)
    (hch : msf_channel_count sf1 = msf_channel_count sf2)
    (hds : msf_data_size sf1 = msf_data_size sf2)
    (hsr : msf_sample_rate sf1 = msf_sample_rate sf2)
    (hlf : msf_loop_flag sf1 = msf_loop_flag sf2)
    (hls : msf_loop_start sf1 = msf_loop_start sf2)
    (hle : msf_loop_end sf1 = msf_loop_end sf2) :
    init_vgmstream_msf E sf1 = init_vgmstream_msf E sf2 := by
  have halloc : msf_allocated E sf1 = msf_allocated E sf2 := by
    unfold msf_allocated
    rw [hch, hlf, hsr]
  have hpcm : ∀ v, msf_case_pcm sf1 v = msf_case_pcm sf2 v := by
    intro v
    unfold msf_case_pcm
    rw [hcodec, hch, hds, hlf, hls, hle]
  have hpsx : ∀ v, msf_case_psx E sf1 v = msf_case_psx E sf2 v := by
    intro v
    unfold msf_case_psx
    rw [hch, hds, hlf, hls, hle]
  have hat : ∀ v, msf_case_atrac3 E sf1 v = msf_case_atrac3 E sf2 v := by
    intro v
    unfold msf_case_atrac3
    rw [hcodec, hds, hlf, hls, hle, hE.init_ffmpeg_atrac3_raw]
  have hff : ∀ v, msf_case_mp3_ffmpeg E sf1 v = msf_case_mp3_ffmpeg E sf2 v := by
    intro v
    unfold msf_case_mp3_ffmpeg
    rw [hds, hlf, hls, hle, hE.init_ffmpeg_offset, hsize]
  have hmp : ∀ v, msf_case_mpeg E sf1 v = msf_case_mpeg E sf2 v := by
    intro v
    unfold msf_case_mpeg
    rw [hds, hlf, hls, hle, hE.init_mpeg]
  have hsw : ∀ v, msf_codec_switch E sf1 v = msf_codec_switch E sf2 v := by
    intro v
    unfold msf_codec_switch
    rw [hcodec, hpcm, hpsx, hat, hff, hmp]
  unfold init_vgmstream_msf
  simp only [hE.check_extensions, hmagic, halloc, hsw, hE.open_accepts]

/-- The sample engine does not look at the source. -/
theorem sampleEngine_sameOn (sf1 sf2 : STREAMFILE) : sampleEngine.SameOn sf1 sf2 where
  check_extensions := rfl
  open_accepts := fun _ _ => rfl
  init_ffmpeg_atrac3_raw := rfl
  init_ffmpeg_offset := rfl
  init_mpeg := rfl

/-- Two byte lists with the same first `n` bytes and the same bytes from `m` on have the same
byte at every offset outside `n..m-1`. -/
theorem byteAt_eq_of_take_drop {b1 b2 : List Nat} {n m : Nat} (ht : b1.take n = b2.take n)
    (hd : b1.drop m = b2.drop m) (o : Int) (ho : o < (n : Int) ∨ (m : Int) ≤ o) :
    byteAt b1 o = byteAt b2 o := by
  unfold byteAt
  by_cases h0 : 0 ≤ o
  · rw [if_pos h0, if_pos h0]
    rcases ho with h | h
    · have hlt : o.toNat < n := by omega
      have e1 := @List.getElem?_take _ b1 n o.toNat
      have e2 := @List.getElem?_take _ b2 n o.toNat
      rw [if_pos hlt] at e1 e2
      rw [← e1, ← e2, ht]
    · have e : m + (o.toNat - m) = o.toNat := by omega
      have e1 := List.getElem?_drop b1 m (o.toNat - m)
      have e2 := List.getElem?_drop b2 m (o.toNat - m)
      rw [e] at e1 e2
      rw [← e1, ← e2, hd]
  · rw [if_neg h0, if_neg h0]

/-- Such byte lists have the same 32-bit word at every offset whose four bytes lie outside
`n..m-1`. -/
theorem be32At_eq_of_take_drop {b1 b2 : List Nat} {n m : Nat} (ht : b1.take n = b2.take n)
    (hd : b1.drop m = b2.drop m) (off : Int) (ho : off + 3 < (n : Int) ∨ (m : Int) ≤ off) :
    be32At b1 off = be32At b2 off := by
  unfold be32At
  rw [byteAt_eq_of_take_drop ht hd off (by omega),
    byteAt_eq_of_take_drop ht hd (off + 1) (by omega),
    byteAt_eq_of_take_drop ht hd (off + 2) (by omega),
    byteAt_eq_of_take_drop ht hd (off + 3) (by omega)]

/-- C13. `init_vgmstream_msf` rejects every source whose first three bytes (the upper 24 bits
of the word at 0x00) are not "MSF"; and two sources that have the same first three bytes, the
same words from offset 4 on and the same length, that is, that differ only in byte 0x03,
yield the same outcome and the same descriptor, the engine answering alike on both. -/
theorem msf_version_byte_ignored (E : Engine) (sf1 sf2 : STREAMFILE) (hE : E.SameOn sf1 sf2)
    (hmagic : toU32 (sf1.read_32bitBE 0x00) / 256 = toU32 (sf2.read_32bitBE 0x00) / 256)
    (hreads : ∀ off : Int, 4 ≤ off → sf1.read_32bitBE off = sf2.read_32bitBE off)
    (hsize : sf1.get_streamfile_size = sf2.get_streamfile_size) :
    (toU32 (sf1.read_32bitBE 0x00) / 256 ≠ 0x4D5346 → init_vgmstream_msf E sf1 = none) ∧
      init_vgmstream_msf E sf1 = init_vgmstream_msf E sf2 := by
  constructor
  · intro hne
    unfold init_vgmstream_msf
    rw [if_pos ((msf_magic_check_iff sf1).2 hne)]
    split_ifs <;> rfl
  · have hm : (toU32 (sf1.read_32bitBE 0x00)) &&& 0xffffff00
        = (toU32 (sf2.read_32bitBE 0x00)) &&& 0xffffff00 := by
      rw [and_ffffff00 _ (toU32_lt _), and_ffffff00 _ (toU32_lt _), hmagic]
    have hflags : msf_flags sf1 = msf_flags sf2 := by
      unfold msf_flags
      rw [hreads _ (by norm_num)]
    have hlf : msf_loop_flag sf1 = msf_loop_flag sf2 := by
      unfold msf_loop_flag
      rw [hflags]
    have hds : msf_data_size sf1 = msf_data_size sf2 := by
      unfold msf_data_size
      rw [hreads _ (by norm_num), hsize]
    apply init_vgmstream_msf_congr hE hm hsize
    · unfold msf_codec
      rw [hreads _ (by norm_num)]
    · unfold msf_channel_count
      rw [hreads _ (by norm_num)]
    · exact hds
    · unfold msf_sample_rate
      rw [hreads _ (by norm_num)]
    · exact hlf
    · unfold msf_loop_start
      rw [hlf, hreads _ (by norm_num)]
    · unfold msf_loop_end
      rw [hlf, hds, hreads 0x18 (by norm_num), hreads 0x1C (by norm_num)]

theorem msf_version_byte_ignored_witness :
    msfScenarioB.read_32bitBE 0x00 = 0x4D534643 ∧
      msfScenarioB_v01.read_32bitBE 0x00 = 0x4D534601 ∧
      init_vgmstream_msf sampleEngine msfScenarioB = some msfScenarioB_result ∧
      init_vgmstream_msf sampleEngine msfScenarioB = init_vgmstream_msf sampleEngine
        msfScenarioB_v01 :=
  ⟨by decide, by decide, by decide,
    (msf_version_byte_ignored sampleEngine msfScenarioB msfScenarioB_v01
      (sampleEngine_sameOn _ _) (by decide)
      (fun off h4 => @be32At_eq_of_take_drop _ _ 3 4 (by decide) (by decide) off (Or.inr h4))
      (by decide)).2⟩

/-- C19. In `init_vgmstream_msf`, when the flag word does not enable looping, two sources that
have the same words outside the bytes 0x18..0x1F and the same length, that is, that differ
only in the eight loop-marker bytes, yield the same outcome and the same descriptor (the
engine answering alike on both), and a descriptor returned has looping disabled. -/
theorem msf_loop_markers_ignored (E : Engine) (sf1 sf2 : STREAMFILE) (hE : E.SameOn sf1 sf2)
    (hreads : ∀ off : Int, (off + 4 ≤ 0x18 ∨ 0x20 ≤ off) →
      sf1.read_32bitBE off = sf2.read_32bitBE off)
    (hsize : sf1.get_streamfile_size = sf2.get_streamfile_size)
    (hoff : msf_loop_flag sf1 = 0) :
    init_vgmstream_msf E sf1 = init_vgmstream_msf E sf2 ∧
      (∀ r, init_vgmstream_msf E sf1 = some r → r.loop_flag = 0) := by
  have hflags : msf_flags sf1 = msf_flags sf2 := by
    unfold msf_flags
    rw [hreads _ (by norm_num)]
  have hlf : msf_loop_flag sf1 = msf_loop_flag sf2 := by
    unfold msf_loop_flag
    rw [hflags]
  have hoff2 : msf_loop_flag sf2 = 0 := by
    rw [← hlf]
    exact hoff
  have hds : msf_data_size sf1 = msf_data_size sf2 := by
    unfold msf_data_size
    rw [hreads _ (by norm_num), hsize]
  constructor
  · apply init_vgmstream_msf_congr hE _ hsize
    · unfold msf_codec
      rw [hreads _ (by norm_num)]
    · unfold msf_channel_count
      rw [hreads _ (by norm_num)]
    · exact hds
    · unfold msf_sample_rate
      rw [hreads _ (by norm_num)]
    · exact hlf
    · unfold msf_loop_start
      rw [hoff, hoff2]
      rfl
    · unfold msf_loop_end
      rw [hoff, hoff2]
      rfl
    · rw [hreads _ (by norm_num)]
  · intro r hr
    rw [(init_vgmstream_msf_flags hr).2]
    exact hoff

theorem msf_loop_markers_ignored_witness :
    msf_loop_flag msfScenarioA = 0 ∧
      msfScenarioA.read_32bitBE 0x18 = 0 ∧ msfScenarioA_markers.read_32bitBE 0x18 = 8 ∧
      init_vgmstream_msf sampleEngine msfScenarioA = some msfScenarioA_result ∧
      init_vgmstream_msf sampleEngine msfScenarioA
        = init_vgmstream_msf sampleEngine msfScenarioA_markers :=
  ⟨by decide, by decide, by decide, by decide,
    (msf_loop_markers_ignored sampleEngine msfScenarioA msfScenarioA_markers
      (sampleEngine_sameOn _ _)
      (fun off h => @be32At_eq_of_take_drop _ _ 0x18 0x20 (by decide) (by decide) off
        (by omega))
      (by decide) (by decide)).1⟩

theorem pdt_scan_step_congr {sf1 sf2 : STREAMFILE}
    (h32 : sf1.read_32bitBE = sf2.read_32bitBE) (eo t : Int) (s : PdtScan) (i : Nat) :
    pdt_scan_step sf1 eo t s i = pdt_scan_step sf2 eo t s i := by
  unfold pdt_scan_step pdt_entry_offset pdt_data_offset
  rw [h32]

theorem pdt_scan_from_congr {sf1 sf2 : STREAMFILE}
    (h32 : sf1.read_32bitBE = sf2.read_32bitBE) (eo t : Int) (l : List Nat) (s : PdtScan) :
    pdt_scan_from sf1 eo t l s = pdt_scan_from sf2 eo t l s := by
  induction l generalizing s with
  | nil => rfl
  | cons i rest ih =>
    simp only [pdt_scan_from, pdt_scan_step_congr h32]
    cases pdt_scan_step sf2 eo t s i with
    | none => rfl
    | some s1 => exact ih s1

/-- `init_vgmstream_ngc_pdt` is determined by what the reads return, the requested index
with 0 replaced by 1, and the answers of the engine. -/
theorem init_vgmstream_ngc_pdt_congr {E : Engine} {sf1 sf2 : STREAMFILE}
    (hE : E.SameOn sf1 sf2) (h8 : sf1.read_8bit = sf2.read_8bit)
    (h16 : sf1.read_16bitBE = sf2.read_16bitBE) (h32 : sf1.read_32bitBE = sf2.read_32bitBE)
    (ht : pdt_target_subsong sf1.stream_index = pdt_target_subsong sf2.stream_index) :
    init_vgmstream_ngc_pdt E sf1 = init_vgmstream_ngc_pdt E sf2 := by
  have hbuild : ∀ c ho n, pdt_build E sf1 c ho n = pdt_build E sf2 c ho n := by
    intro c ho n
    unfold pdt_build pdt_describe pdt_flags pdt_channel2_offset
    simp only [h8, h16, h32, hE.open_accepts]
  have hscan : ∀ eo t n, pdt_scan sf1 eo t n = pdt_scan sf2 eo t n := by
    intro eo t n
    unfold pdt_scan
    exact pdt_scan_from_congr h32 eo t _ _
  unfold init_vgmstream_ngc_pdt pdt_header_ok pdt_entries pdt_entries_offset pdt_coefs_offset
  simp only [hE.check_extensions, h16, h32, ht, hscan, hbuild]

/-- C14. In `init_vgmstream_ngc_pdt`, a source opened with the requested subsong index 0
yields the same outcome and the same descriptor as the same source opened with index 1, the
engine answering alike on both. -/
theorem pdt_index_zero_is_one (E : Engine) (sf : STREAMFILE)
    (hE : E.SameOn { sf with stream_index := 0 } { sf with stream_index := 1 }) :
    init_vgmstream_ngc_pdt E { sf with stream_index := 0 }
      = init_vgmstream_ngc_pdt E { sf with stream_index := 1 } :=
  init_vgmstream_ngc_pdt_congr hE rfl rfl rfl rfl

theorem pdt_index_zero_is_one_witness :
    init_vgmstream_ngc_pdt sampleEngine { pdtScenarioC 7 with stream_index := 1 }
        = some pdtScenarioC_result ∧
      init_vgmstream_ngc_pdt sampleEngine { pdtScenarioC 7 with stream_index := 0 }
        = init_vgmstream_ngc_pdt sampleEngine { pdtScenarioC 7 with stream_index := 1 } :=
  ⟨by decide, pdt_index_zero_is_one sampleEngine (pdtScenarioC 7) (sampleEngine_sameOn _ _)⟩

/-! ## Sub-header fields of `init_vgmstream_ngc_pdt` and the signature of the split variant -/

/-- The fields of a descriptor built from the sub-header at `ho`. -/
theorem pdt_build_some {E : Engine} {sf : STREAMFILE} {c ho : Int} {t : Nat} {r : VGMSTREAM}
    (h : pdt_build E sf c ho t = some r) :
    r.channels = pdt_channel_count (pdt_flags sf ho) ∧
      r.loop_flag = pdt_loop_flag (pdt_flags sf ho) ∧
      r.num_samples = E.dsp_nibbles_to_samples (toSize (sf.read_32bitBE (ho + 0x08))) ∧
      r.loop_start_sample = E.dsp_nibbles_to_samples (toSize (sf.read_32bitBE (ho + 0x0c))) ∧
      r.loop_end_sample = r.num_samples ∧
      r.ch1_offset =
        (if pdt_channel_count (pdt_flags sf ho) = 2 then
          some (pdt_channel2_offset sf ho (pdt_flags sf ho))
        else none) := by
  unfold pdt_build at h
  simp only at h
  split at h
  · exact absurd h (by simp)
  · rename_i v hv
    have hv0 := allocate_vgmstream_some hv
    subst hv0
    split at h
    · exact absurd h (by simp)
    · split at h
      · rename_i h2
        simp only [Option.some.injEq] at h
        subst h
        exact ⟨rfl, rfl, rfl, rfl, rfl, by rw [if_pos h2]⟩
      · rename_i h2
        simp only [Option.some.injEq] at h
        subst h
        exact ⟨rfl, rfl, rfl, rfl, rfl, by rw [if_neg h2]; rfl⟩

/-- C16. In `init_vgmstream_ngc_pdt`, for the sub-header at the offset that the scan
resolved, `loop_start_sample` is `dsp_nibbles_to_samples` of the raw loop start (sub-header
0x0C), `num_samples` is `dsp_nibbles_to_samples` of the raw duration (sub-header 0x08), the
same conversion of the engine with no channel count or byte count in it, and
`loop_end_sample` is `num_samples`. -/
theorem pdt_loop_samples (E : Engine) (sf : STREAMFILE) (r : VGMSTREAM)
    (h : init_vgmstream_ngc_pdt E sf = some r) :
    ∃ s, pdt_scan sf (pdt_entries_offset sf) (pdt_target_subsong sf.stream_index)
          (pdt_entries sf) = some s ∧
      r.loop_start_sample
        = E.dsp_nibbles_to_samples (toSize (sf.read_32bitBE (s.header_offset + 0x0c))) ∧
      r.num_samples
        = E.dsp_nibbles_to_samples (toSize (sf.read_32bitBE (s.header_offset + 0x08))) ∧
      r.loop_end_sample = r.num_samples := by
  obtain ⟨-, s, hs, hb⟩ := init_vgmstream_ngc_pdt_some h
  obtain ⟨-, -, hn, hls, hle, -⟩ := pdt_build_some hb
  exact ⟨s, hs, hls, hn, hle⟩

theorem pdt_loop_samples_witness :
    init_vgmstream_ngc_pdt sampleEngine (pdtScenarioC 1) = some pdtScenarioC_result ∧
      ∃ s, pdt_scan (pdtScenarioC 1) (pdt_entries_offset (pdtScenarioC 1))
            (pdt_target_subsong (pdtScenarioC 1).stream_index)
            (pdt_entries (pdtScenarioC 1)) = some s ∧
        pdtScenarioC_result.loop_start_sample
          = sampleEngine.dsp_nibbles_to_samples
              (toSize ((pdtScenarioC 1).read_32bitBE (s.header_offset + 0x0c))) ∧
        pdtScenarioC_result.num_samples
          = sampleEngine.dsp_nibbles_to_samples
              (toSize ((pdtScenarioC 1).read_32bitBE (s.header_offset + 0x08))) ∧
        pdtScenarioC_result.loop_end_sample = pdtScenarioC_result.num_samples :=
  ⟨by decide, pdt_loop_samples sampleEngine (pdtScenarioC 1) pdtScenarioC_result (by decide)⟩

/-- The check of lines 161-165 refuses a fake header only when all four fields differ from the
signature. -/
theorem pdt_split_refused_iff (sf : STREAMFILE) :
    pdt_split_refused sf = true ↔
      (sf.read_32bitBE 0x00 ≠ 0x50445420 ∧ sf.read_32bitBE 0x04 ≠ 0x44535020 ∧
        sf.read_32bitBE 0x08 ≠ 0x48454144 ∧ sf.read_16bitBE 0x0C ≠ 0x4552) := by
  unfold pdt_split_refused
  split_ifs with hc
  · simp only [true_iff]
    exact hc
  · simp only [Bool.false_eq_true, false_iff]
    exact hc

/-- C17, the code at a failing input. The source `pdtSplitPartialSignature` carries "PDT " at
0x00 but differs from the signature at 0x04 ("DSP "), 0x08 ("HEAD") and 0x0C ("ER"); the
check of lines 161-165 joins the four comparisons with `&&`, does not refuse the source, and
`init_vgmstream_ngc_pdt_split` returns a descriptor. -/
theorem pdt_split_partial_signature_accepted :
    pdtSplitPartialSignature.read_32bitBE 0x00 = 0x50445420 ∧
      pdtSplitPartialSignature.read_32bitBE 0x04 ≠ 0x44535020 ∧
      pdtSplitPartialSignature.read_32bitBE 0x08 ≠ 0x48454144 ∧
      pdtSplitPartialSignature.read_16bitBE 0x0C ≠ 0x4552 ∧
      pdt_split_refused pdtSplitPartialSignature = false ∧
      init_vgmstream_ngc_pdt_split sampleEngine pdtSplitPartialSignature
        = some pdtSplitPartialSignature_result := by
  decide

/-! ## Order of the loop points and sign of the sample count in `init_vgmstream_msf` -/

/-- C18, refuted as stated. The well-formed ATRAC3 header `msfAtrac3Loop` loops over its
second block: `loop_start_sample` is 1024 and `loop_end_sample` is 2048 - 1162 = 886, because
the pre-roll is subtracted from the loop end only.  The PCM header `msfStartBeyondData`, whose
raw loop start 100 lies beyond the 40 data bytes, gets `loop_start_sample` 25 and
`loop_end_sample` 10, because only the loop end is clamped. -/
theorem msf_loop_region_inverted :
    (init_vgmstream_msf sampleEngine msfAtrac3Loop).map
        (fun r => (r.loop_flag, r.loop_start_sample, r.loop_end_sample)) = some (1, 1024, 886) ∧
      (init_vgmstream_msf sampleEngine msfStartBeyondData).map
        (fun r => (r.loop_flag, r.loop_start_sample, r.loop_end_sample)) = some (1, 25, 10) := by
  decide

/-- C18, amended. For a header accepted by `init_vgmstream_msf` with looping enabled, whose
raw loop start (0x18) does not exceed the data size, whose sum of raw loop start and duration
(0x1C) fits in 32 bits, and whose data size converts to a sample count below 2^31 (so that no
sample field wraps), `loop_start_sample <= loop_end_sample` for the codec ids other than 4, 5
and 6, and `loop_start_sample - 1162 <= loop_end_sample` for the ATRAC3 ids 4, 5 and 6, where
the pre-roll is subtracted from the loop end only.  The conversions that `init_vgmstream_msf`
calls from outside `msf.c` are taken to be monotone in the byte count and not negative
(`Engine.Monotone`, `Engine.Nonneg`). -/
theorem msf_loop_region_ordered (E : Engine) (hE : E.Monotone) (hN : E.Nonneg)
    (sf : STREAMFILE) (r : VGMSTREAM) (h : init_vgmstream_msf E sf = some r)
    (hlf : r.loop_flag ≠ 0)
    (hstart : toU32 (sf.read_32bitBE 0x18) ≤ msf_data_size sf)
    (hsum : toU32 (sf.read_32bitBE 0x18) + toU32 (sf.read_32bitBE 0x1C) < 4294967296)
    (hfit : msf_sample_count E sf (msf_data_size sf) < 2147483648) :
    (¬ (msf_codec sf = 4 ∨ msf_codec sf = 5 ∨ msf_codec sf = 6) →
        r.loop_start_sample ≤ r.loop_end_sample) ∧
      ((msf_codec sf = 4 ∨ msf_codec sf = 5 ∨ msf_codec sf = 6) →
        r.loop_start_sample - 1162 ≤ r.loop_end_sample) := by
  obtain ⟨-, hloop⟩ := init_vgmstream_msf_counts h
  have hf : msf_loop_flag sf ≠ 0 := by
    rw [(init_vgmstream_msf_flags h).2] at hlf
    exact hlf
  have hb : msf_loop_start sf ≤ msf_loop_end sf := by
    unfold msf_loop_start msf_loop_end msf_clamp_loop_end wrap32
    rw [if_pos hf, if_pos hf]
    simp only
    rw [Nat.mod_eq_of_lt hsum]
    split_ifs
    · exact hstart
    · omega
  have hb2 := msf_loop_end_le_data_size sf hf
  have hd := msf_data_size_lt sf
  have hm1 := msf_sample_count_mono hE sf hb (lt_of_le_of_lt hb2 hd)
  have hm2 := msf_sample_count_mono hE sf hb2 hd
  have h0 := msf_sample_count_nonneg hN sf (lt_of_le_of_lt (le_trans hb hb2) hd)
  rw [(hloop hlf).1, (hloop hlf).2, toI32_of_range (by omega) (by omega)]
  constructor
  · intro hc
    have hp : msf_pre_roll sf = 0 := by
      unfold msf_pre_roll
      rw [if_neg hc]
    rw [hp, sub_zero, toI32_of_range (by omega) (by omega)]
    exact hm1
  · intro hc
    have hp : msf_pre_roll sf = 1162 := by
      unfold msf_pre_roll
      rw [if_pos hc]
    rw [hp, toI32_of_range (by omega) (by omega)]
    omega

theorem msf_loop_region_ordered_witness :
    init_vgmstream_msf sampleEngine msfScenarioB = some msfScenarioB_result ∧
      msfScenarioB_result.loop_flag ≠ 0 ∧
      toU32 (msfScenarioB.read_32bitBE 0x18) ≤ msf_data_size msfScenarioB ∧
      toU32 (msfScenarioB.read_32bitBE 0x18) + toU32 (msfScenarioB.read_32bitBE 0x1C)
        < 4294967296 ∧
      msf_sample_count sampleEngine msfScenarioB (msf_data_size msfScenarioB) < 2147483648 ∧
      ¬ (msf_codec msfScenarioB = 4 ∨ msf_codec msfScenarioB = 5 ∨ msf_codec msfScenarioB = 6) ∧
      msfScenarioB_result.loop_start_sample ≤ msfScenarioB_result.loop_end_sample :=
  ⟨by decide, by decide, by decide, by decide, by decide, by decide,
    (msf_loop_region_ordered sampleEngine sampleEngine_monotone sampleEngine_nonneg
      msfScenarioB msfScenarioB_result (by decide) (by decide) (by decide) (by decide)
      (by decide)).1 (by decide)⟩

/-- C20, refuted as stated. The ATRAC3 header `msfAtrac3NoData` (codec 4, data size 0) is
accepted and its `num_samples` is 0 - 1162 = -1162. -/
theorem msf_atrac3_num_samples_negative :
    msf_codec msfAtrac3NoData = 4 ∧ msf_data_size msfAtrac3NoData = 0 ∧
      (init_vgmstream_msf sampleEngine msfAtrac3NoData).map VGMSTREAM.num_samples
        = some (-1162) := by
  decide

/-- C20, amended. For a header accepted by `init_vgmstream_msf` whose data size converts to a
sample count below 2^31 (so that `num_samples` does not wrap), `num_samples` is not negative
for the codec ids other than 4, 5 and 6 (the conversions and the decoder parameters of the
engine being non-negative, `Engine.Nonneg`); for the ATRAC3 ids 4, 5 and 6 it is the
converted sample count minus the pre-roll 1162, and it is not negative exactly when the
converted count is at least 1162. -/
theorem msf_num_samples_sign (E : Engine) (hE : E.Nonneg) (sf : STREAMFILE) (r : VGMSTREAM)
    (h : init_vgmstream_msf E sf = some r)
    (hfit : msf_sample_count E sf (msf_data_size sf) < 2147483648) :
    (¬ (msf_codec sf = 4 ∨ msf_codec sf = 5 ∨ msf_codec sf = 6) → 0 ≤ r.num_samples) ∧
      ((msf_codec sf = 4 ∨ msf_codec sf = 5 ∨ msf_codec sf = 6) →
        r.num_samples =
            E.atrac3_bytes_to_samples (msf_data_size sf)
              (msf_block_align (msf_codec sf) (msf_channel_count sf)) - 1162 ∧
          (0 ≤ r.num_samples ↔
            1162 ≤ E.atrac3_bytes_to_samples (msf_data_size sf)
              (msf_block_align (msf_codec sf) (msf_channel_count sf)))) := by
  obtain ⟨hn, -⟩ := init_vgmstream_msf_counts h
  have h0 := msf_sample_count_nonneg hE sf (msf_data_size_lt sf)
  rw [hn]
  constructor
  · intro hc
    have hp : msf_pre_roll sf = 0 := by
      unfold msf_pre_roll
      rw [if_neg hc]
    rw [hp, sub_zero, toI32_of_range (by omega) (by omega)]
    exact h0
  · intro hc
    have hp : msf_pre_roll sf = 1162 := by
      unfold msf_pre_roll
      rw [if_pos hc]
    rw [msf_sample_count_atrac3 hc] at hfit h0 ⊢
    rw [hp, toI32_of_range (by omega) (by omega)]
    refine ⟨rfl, ?_⟩
    constructor <;> intro hx <;> omega

theorem msf_num_samples_sign_witness :
    init_vgmstream_msf sampleEngine msfScenarioA = some msfScenarioA_result ∧
      msf_sample_count sampleEngine msfScenarioA (msf_data_size msfScenarioA) < 2147483648 ∧
      ¬ (msf_codec msfScenarioA = 4 ∨ msf_codec msfScenarioA = 5 ∨ msf_codec msfScenarioA = 6) ∧
      0 ≤ msfScenarioA_result.num_samples :=
  ⟨by decide, by decide, by decide,
    (msf_num_samples_sign sampleEngine sampleEngine_nonneg msfScenarioA msfScenarioA_result
      (by decide) (by decide)).1 (by decide)⟩

end VGMPlayerNX
